import Mathlib

/-!
Verification of the anonymous-chat matchmaking bot (main.py / database.py)
against its natural-language specification.

The MongoDB collections (`users`, `active_pairs`, `waiting_queue`) and the
in-process state (`reporting` dict, aiogram FSM contexts, sent messages) are
embedded as a single record `DBState`.  Each database method of
`database.py` becomes a pure function on `DBState`; each aiogram handler of
`main.py` becomes an event of an executable transition system
(`applyEvent`).  Time is a natural-number clock advanced by an explicit
`tick` event; MongoDB's passive TTL deletion of waiting entries
(`expireAfterSeconds=300`) is an explicit `ttlSweep` event.

A second, fine-grained machine (`IStep`) decomposes `find_partner` into its
`await`-separated primitive store operations, so that genuine asyncio
interleavings of two concurrent `/next` handlers can be exhibited.
-/

/-- A document of the `waiting_queue` collection
(`Database.add_to_waiting`). -/
structure WEntry where
  user_id : Int
  timestamp : Nat
  lang : String
deriving DecidableEq

/-- A document of the `users` collection.  Fields other than `user_id` are
optional because `update_one(..., {"$set": ...}, upsert=True)` can create a
document carrying only the fields of that particular `$set` (e.g.
`add_warning` upserts only `warnings`).  The `premium_expires` field is not
modelled: no claim mentions it and it influences none of the modelled
flows. -/
structure UserDoc where
  user_id : Int
  language : Option String := none
  warnings : Option Int := none
  banned : Option Bool := none
  created_at : Option Nat := none
  last_active : Option Nat := none
deriving DecidableEq

/-- A document of the `active_pairs` collection (`Database.create_pair`). -/
structure PairDoc where
  user1_id : Int
  user2_id : Int
  pair_id : Nat
  created_at : Nat
  last_activity : Nat
  status : String
deriving DecidableEq

/-- The aiogram FSM states used by the bot (`PartnerStates`).  The
`reporting` FSM state and the admin `waiting_for_mail` state are declared in
the source but are never set by, respectively, any handler and the modelled
matchmaking flows, so they are omitted. -/
inductive FsmSt
  | searching
  | inDialogue
deriving DecidableEq

/-- The whole observable state: the three MongoDB collections, the
module-level `reporting` dict of main.py, the per-user FSM contexts, the
log of notification sends `(recipient, message key)`, and the clock. -/
structure DBState where
  users : List UserDoc := []
  active_pairs : List PairDoc := []
  waiting_queue : List WEntry := []
  reportingMap : List (Int × Int) := []
  fsm : List (Int × FsmSt) := []
  msgs : List (Int × String) := []
  now : Nat := 0
deriving DecidableEq

/-- The environment configuration read at startup; only `MAX_WARNINGS`
matters to the modelled flows (default 10). -/
structure Cfg where
  maxWarnings : Int := 10
deriving DecidableEq

def initState : DBState := {}

/-! ## database.py primitives -/

/-- `Database.get_user`: `users.find_one({"user_id": user_id})`. -/
def get_user (s : DBState) (uid : Int) : Option UserDoc :=
  s.users.find? (fun d => d.user_id == uid)

/-- `dict.get("warnings", 0)` on a user document. -/
def docWarnings (d : UserDoc) : Int := d.warnings.getD 0

/-- `dict.get("banned", False)` on a user document. -/
def docBanned (d : UserDoc) : Bool := d.banned.getD false

/-- `users.update_one({"user_id": uid}, {"$set": ...}, upsert=True)`:
update the (unique) matching document in place, or append a fresh one. -/
def upsertUser (uid : Int) (onFound : UserDoc → UserDoc) (ifAbsent : UserDoc) :
    List UserDoc → List UserDoc
  | [] => [ifAbsent]
  | d :: ds =>
    if d.user_id == uid then onFound d :: ds
    else d :: upsertUser uid onFound ifAbsent ds

/-- `Database.ban_user`: `update_user(uid, {"banned": True})`. -/
def ban_user (s : DBState) (uid : Int) : DBState :=
  { s with
    users := upsertUser uid (fun d => { d with banned := some true })
      ({ user_id := uid, banned := some true }) s.users }

/-- `Database.unban_user`: `update_user(uid, {"banned": False})`. -/
def unban_user (s : DBState) (uid : Int) : DBState :=
  { s with
    users := upsertUser uid (fun d => { d with banned := some false })
      ({ user_id := uid, banned := some false }) s.users }

/-- `update_user(uid, {"warnings": w})` as done by `cleanup_user`. -/
def set_warnings (s : DBState) (uid : Int) (w : Int) : DBState :=
  { s with
    users := upsertUser uid (fun d => { d with warnings := some w })
      ({ user_id := uid, warnings := some w }) s.users }

/-- `Database.set_user_language`: `update_user(uid, {"language": l})`. -/
def set_user_language (s : DBState) (uid : Int) (l : String) : DBState :=
  { s with
    users := upsertUser uid (fun d => { d with language := some l })
      ({ user_id := uid, language := some l }) s.users }

/-- `Database.add_user`: upsert of the full profile document. -/
def add_user (s : DBState) (uid : Int) (lang : String) : DBState :=
  let doc : UserDoc :=
    { user_id := uid, language := some lang, warnings := some 0,
      banned := some false, created_at := some s.now, last_active := some s.now }
  { s with users := upsertUser uid (fun _ => doc) doc s.users }

/-- `Database.update_user_activity`'s mutation: `update_one({"user_id": uid},
{"$set": {"last_active": now}})` (no upsert; no-op when the user is
absent).  The `check_premium` call it performs touches only the unmodelled
`premium_expires` field. -/
def update_user_activity (s : DBState) (uid : Int) : DBState :=
  { s with
    users := s.users.map
      (fun d => if d.user_id == uid then { d with last_active := some s.now } else d) }

/-- `Database.add_warning`: `update_one({"user_id": uid},
{"$inc": {"warnings": 1}}, upsert=True)`.  (The method then re-reads the
user and returns the warning count; the sole caller ignores the return
value and calls `get_warnings` itself.) -/
def add_warning (s : DBState) (uid : Int) : DBState :=
  { s with
    users := upsertUser uid
      (fun d => { d with warnings := some (docWarnings d + 1) })
      ({ user_id := uid, warnings := some 1 }) s.users }

/-- `Database.is_banned`. -/
def is_banned (s : DBState) (uid : Int) : Bool :=
  match get_user s uid with
  | some d => docBanned d
  | none => false

/-- `Database.get_warnings`. -/
def get_warnings (s : DBState) (uid : Int) : Int :=
  match get_user s uid with
  | some d => docWarnings d
  | none => 0

/-- `Database.get_user_language`: `user.get("language", "en")` when the
document exists, `None` otherwise. -/
def get_user_language (s : DBState) (uid : Int) : Option String :=
  match get_user s uid with
  | some d => some (d.language.getD "en")
  | none => none

/-- `Database.is_existing_user`. -/
def is_existing_user (s : DBState) (uid : Int) : Bool :=
  (get_user s uid).isSome

/-- `Database.get_pair`: first `active_pairs` document having the user as
either member and status `"active"`. -/
def get_pair (s : DBState) (uid : Int) : Option PairDoc :=
  s.active_pairs.find?
    (fun p => (p.user1_id == uid || p.user2_id == uid) && p.status == "active")

/-- `Database.is_in_dialogue`. -/
def is_in_dialogue (s : DBState) (uid : Int) : Bool :=
  (get_pair s uid).isSome

/-- `Database.get_partner_id`. -/
def get_partner_id (s : DBState) (uid : Int) : Option Int :=
  match get_pair s uid with
  | some p => some (if p.user1_id == uid then p.user2_id else p.user1_id)
  | none => none

/-- `Database.create_pair`: unconditional `insert_one` of a new active pair
with canonically ordered members.  The `random.randint` pair id is supplied
by the event (a nondeterministic choice). -/
def create_pair (s : DBState) (u1 u2 : Int) (pid : Nat) : DBState :=
  { s with
    active_pairs := s.active_pairs ++
      [{ user1_id := min u1 u2, user2_id := max u1 u2, pair_id := pid,
         created_at := s.now, last_activity := s.now, status := "active" }] }

/-- `Database.end_pair`: set the status of the first document with the
given `pair_id`. -/
def end_pair (s : DBState) (pid : Nat) (status : String) : DBState :=
  { s with active_pairs := go s.active_pairs }
where
  go : List PairDoc → List PairDoc
    | [] => []
    | p :: ps =>
      if p.pair_id == pid then { p with status := status } :: ps
      else p :: go ps

/-- `Database.get_waiting_users`: the whole `waiting_queue` collection. -/
def get_waiting_users (s : DBState) : List WEntry := s.waiting_queue

/-- `Database.is_waiting`. -/
def is_waiting (s : DBState) (uid : Int) : Bool :=
  (s.waiting_queue.find? (fun e => e.user_id == uid)).isSome

/-- `Database.add_to_waiting`: upsert of `{user_id, timestamp: now, lang}`. -/
def add_to_waiting (s : DBState) (uid : Int) (lang : String) : DBState :=
  { s with waiting_queue := go s.waiting_queue }
where
  go : List WEntry → List WEntry
    | [] => [{ user_id := uid, timestamp := s.now, lang := lang }]
    | e :: es =>
      if e.user_id == uid then { user_id := uid, timestamp := s.now, lang := lang } :: es
      else e :: go es

/-- `Database.remove_from_waiting`: `delete_one({"user_id": uid})`; the
first component is `deleted_count > 0`. -/
def remove_from_waiting (s : DBState) (uid : Int) : Bool × DBState :=
  (is_waiting s uid,
   { s with waiting_queue := go s.waiting_queue })
where
  go : List WEntry → List WEntry
    | [] => []
    | e :: es => if e.user_id == uid then es else e :: go es

/-! ## In-process state helpers (main.py) -/

/-- `dp.fsm.get_context(...).get_state()` for a user. -/
def fsmGet (s : DBState) (uid : Int) : Option FsmSt :=
  (s.fsm.find? (fun p => p.1 == uid)).map (fun p => p.2)

/-- `state.set_state(...)` for a user. -/
def fsmSet (s : DBState) (uid : Int) (st : FsmSt) : DBState :=
  { s with fsm := go s.fsm }
where
  go : List (Int × FsmSt) → List (Int × FsmSt)
    | [] => [(uid, st)]
    | p :: ps => if p.1 == uid then (uid, st) :: ps else p :: go ps

/-- `state.clear()` for a user. -/
def fsmClear (s : DBState) (uid : Int) : DBState :=
  { s with fsm := s.fsm.filter (fun p => p.1 != uid) }

/-- Lookup in the module-level `reporting` dict. -/
def reportingGet (s : DBState) (uid : Int) : Option Int :=
  (s.reportingMap.find? (fun p => p.1 == uid)).map (fun p => p.2)

/-- `reporting[uid] = target`. -/
def reportingSet (s : DBState) (uid target : Int) : DBState :=
  { s with reportingMap := go s.reportingMap }
where
  go : List (Int × Int) → List (Int × Int)
    | [] => [(uid, target)]
    | p :: ps => if p.1 == uid then (uid, target) :: ps else p :: go ps

/-- `del reporting[uid]`. -/
def reportingDel (s : DBState) (uid : Int) : DBState :=
  { s with reportingMap := s.reportingMap.filter (fun p => p.1 != uid) }

/-- `send_message(uid, key)` on its success path: the delivery is recorded.
(The `TelegramForbiddenError`/`TelegramNotFound` branch, which performs
`cleanup_user`, is modelled separately — see `on_unreachable`.) -/
def sendMsg (s : DBState) (uid : Int) (key : String) : DBState :=
  { s with msgs := s.msgs ++ [(uid, key)] }

/-! ## main.py composite operations -/

/-- `disconnect_users(u1, u2)`: if `u1` has an active pair, end it, clear
both FSM contexts, and notify `u1` with `skipDialogue` and `u2` with
`partnerSkipDialogue`. -/
def disconnect_users (s : DBState) (u1 u2 : Int) : DBState :=
  match get_pair s u1 with
  | some pr =>
    let s := end_pair s pr.pair_id "ended"
    let s := fsmClear s u1
    let s := fsmClear s u2
    let s := sendMsg s u1 "skipDialogue"
    sendMsg s u2 "partnerSkipDialogue"
  | none => s

/-- `cleanup_user(uid)`: disconnect an active pair if any, remove the
waiting entry, ban the user, set warnings to `MAX_WARNINGS`, clear the FSM
context. -/
def cleanup_user (cfg : Cfg) (s : DBState) (uid : Int) : DBState :=
  let s :=
    match get_pair s uid with
    | some pr =>
      disconnect_users s uid (if pr.user1_id == uid then pr.user2_id else pr.user1_id)
    | none => s
  let s := (remove_from_waiting s uid).2
  let s := ban_user s uid
  let s := set_warnings s uid cfg.maxWarnings
  fsmClear s uid

/-- `connect_users(u1, u2)`: create the pair, then notify each member with
`partnerFind` and set their FSM state to `in_dialogue`. -/
def connect_users (s : DBState) (u1 u2 : Int) (pid : Nat) : DBState :=
  let s := create_pair s u1 u2 pid
  let s := sendMsg s u1 "partnerFind"
  let s := fsmSet s u1 .inDialogue
  let s := sendMsg s u2 "partnerFind"
  fsmSet s u2 .inDialogue

/-- The partner-selection loop of `find_partner`: the first snapshot entry
whose `user_id` differs from the caller's and whose `lang` equals the
caller's language (`candidate.get("lang") == user_lang`). -/
def partnerChoice (snap : List WEntry) (uid : Int) (userLang : String) : Option WEntry :=
  match snap with
  | [] => none
  | c :: cs =>
    if c.user_id != uid && c.lang == userLang then some c
    else partnerChoice cs uid userLang

/-- `find_partner(user_data)` run without interleaving: remove the caller
from the queue, snapshot the queue, select a candidate; on a hit remove
both (again) and connect; on a miss enqueue the caller, notify, and enter
the `searching` FSM state (the spawned watcher task is modelled by the
`timerCheck`/`timerFire` events). -/
def find_partner (s : DBState) (uid : Int) (userLang : String) (pid : Nat) : DBState :=
  let s := (remove_from_waiting s uid).2
  let snap := get_waiting_users s
  match partnerChoice snap uid userLang with
  | some c =>
    let s := (remove_from_waiting s uid).2
    let s := (remove_from_waiting s c.user_id).2
    connect_users s uid c.user_id pid
  | none =>
    let s := add_to_waiting s uid userLang
    let s := sendMsg s uid "partnerFinding"
    fsmSet s uid .searching

/-- `message_middleware`: banned users are answered with `banMessage` and
the handler is skipped; unknown users are registered; `last_active` is
refreshed.  Returns `(proceed?, state)`. -/
def middleware (s : DBState) (uid : Int) (langCode : String) : Bool × DBState :=
  if is_banned s uid then (false, sendMsg s uid "banMessage")
  else
    let s := if is_existing_user s uid then s else add_user s uid langCode
    (true, update_user_activity s uid)

/-- `next_handler`: the `/next` command (with middleware). -/
def next_handler (cfg : Cfg) (s : DBState) (uid : Int) (langCode : String) (pid : Nat) :
    DBState :=
  match middleware s uid langCode with
  | (false, s) => s
  | (true, s) =>
    match get_user s uid with
    | none => s
    | some userData =>
      if is_banned s uid then sendMsg s uid "banMessage"
      else if is_in_dialogue s uid then sendMsg s uid "inDialogueWarning"
      else if cfg.maxWarnings ≤ get_warnings s uid then
        let s := ban_user s uid
        let s := cleanup_user cfg s uid
        sendMsg s uid "banMessage"
      else find_partner s uid (userData.language.getD "en") pid

/-- `stop_handler`: the `/stop` command (with middleware).  When the FSM
state is `in_dialogue` but `get_partner_id` is `None`, the source raises a
`TypeError` on `int(None)`; that branch is modelled as leaving the state
unchanged (no committed mutation precedes the raise). -/
def stop_handler (s : DBState) (uid : Int) (langCode : String) : DBState :=
  match middleware s uid langCode with
  | (false, s) => s
  | (true, s) =>
    if is_banned s uid then sendMsg s uid "banMessage"
    else
      match get_partner_id s uid, fsmGet s uid with
      | some p, some .inDialogue =>
        let s := fsmClear s p
        let s := fsmClear s uid
        disconnect_users s uid p
      | none, some .inDialogue => s
      | _, some .searching =>
        let s := (remove_from_waiting s uid).2
        let s := sendMsg s uid "searchStopped"
        fsmClear s uid
      | _, _ => sendMsg s uid "noActiveDialogue"

/-- `report_handler`: the `/report` command (with middleware); records the
report intent `reporting[user] = partner` and shows the reason menu. -/
def report_handler (s : DBState) (uid : Int) (langCode : String) : DBState :=
  match middleware s uid langCode with
  | (false, s) => s
  | (true, s) =>
    if !is_in_dialogue s uid then sendMsg s uid "dialogueHaveError"
    else
      match get_partner_id s uid with
      | some p =>
        let s := reportingSet s uid p
        sendMsg s uid "reportOptions"
      | none => s

/-- A plain (non-registered-command) inbound message (with middleware).
When the sender's FSM state is `in_dialogue` this is `in_dialogue_handler`:
first the pending report (if any) is finalized — intent deleted, warning
added, new count read, ban-and-cleanup when the count reaches
`MAX_WARNINGS`, then disconnect and `reportSuccess`; otherwise commands are
ignored and text is relayed to the partner.  Outside `in_dialogue`, text
falls through to `text_handler` (`sendNext`). -/
def message_handler (cfg : Cfg) (s : DBState) (uid : Int) (langCode : String)
    (isCmd : Bool) : DBState :=
  match middleware s uid langCode with
  | (false, s) => s
  | (true, s) =>
    if fsmGet s uid == some .inDialogue then
      match reportingGet s uid with
      | some target =>
        let s := reportingDel s uid
        let s := add_warning s target
        let w := get_warnings s target
        let s :=
          if cfg.maxWarnings ≤ w then
            let s := ban_user s target
            let s := cleanup_user cfg s target
            sendMsg s target "banMessage"
          else s
        let s := disconnect_users s uid target
        sendMsg s uid "reportSuccess"
      | none =>
        if isCmd then s
        else
          match get_partner_id s uid with
          | some p => sendMsg s p "relayedMessage"
          | none => sendMsg s uid "sendNext"
    else if isCmd then s
    else sendMsg s uid "sendNext"

/-- One intermediate probe of the `check_status` watcher loop in
`start_search_monitoring`: return early when the user is no longer
waiting; `cleanup_user` when the user got banned while waiting; otherwise
keep looping. -/
def timer_check (cfg : Cfg) (s : DBState) (uid : Int) : DBState :=
  if !is_waiting s uid then s
  else if is_banned s uid then cleanup_user cfg s uid
  else s

/-- The final firing of the `check_status` watcher after 60 probes: same
early exits, then remove the waiting entry, send `searchTimeout`, clear the
FSM state. -/
def timer_fire (cfg : Cfg) (s : DBState) (uid : Int) : DBState :=
  if !is_waiting s uid then s
  else if is_banned s uid then cleanup_user cfg s uid
  else
    let s := (remove_from_waiting s uid).2
    let s := sendMsg s uid "searchTimeout"
    fsmClear s uid

/-- MongoDB's passive TTL deletion pass over `waiting_queue`
(`expireAfterSeconds=300` on `timestamp`, set in `init_indexes`): when it
runs, it deletes every entry whose timestamp is at least 300 seconds old. -/
def ttl_sweep (s : DBState) : DBState :=
  { s with
    waiting_queue := s.waiting_queue.filter
      (fun e => s.now < e.timestamp + 300) }

/-- The except-branch of `send_message` on `TelegramForbiddenError` /
`TelegramNotFound` (recipient blocked the bot or deleted the account): the
code runs `cleanup_user` on the unreachable recipient. -/
def on_unreachable (cfg : Cfg) (s : DBState) (uid : Int) : DBState :=
  cleanup_user cfg s uid

/-! ## The sequential (atomic-handler) transition system -/

/-- One inbound event processed to completion with no interleaving.  The
`pid` arguments carry the `random.randint` pair-id draw; `tick` advances
the clock by one second; `ttlSweep` is the store's TTL pass. -/
inductive Event
  | next (uid : Int) (langCode : String) (pid : Nat)
  | stop (uid : Int) (langCode : String)
  | report (uid : Int) (langCode : String)
  | message (uid : Int) (langCode : String) (isCmd : Bool)
  | timerCheck (uid : Int)
  | timerFire (uid : Int)
  | tick
  | ttlSweep
deriving DecidableEq

def applyEvent (cfg : Cfg) (ev : Event) (s : DBState) : DBState :=
  match ev with
  | .next uid lc pid => next_handler cfg s uid lc pid
  | .stop uid lc => stop_handler s uid lc
  | .report uid lc => report_handler s uid lc
  | .message uid lc isCmd => message_handler cfg s uid lc isCmd
  | .timerCheck uid => timer_check cfg s uid
  | .timerFire uid => timer_fire cfg s uid
  | .tick => { s with now := s.now + 1 }
  | .ttlSweep => ttl_sweep s

def runEvents (cfg : Cfg) (evs : List Event) : DBState :=
  evs.foldl (fun s ev => applyEvent cfg ev s) initState

/-- A state of the sequential system reachable from the empty initial
state. -/
def ReachableSeq (cfg : Cfg) (s : DBState) : Prop :=
  ∃ evs : List Event, runEvents cfg evs = s

/-! ## Invariants of the sequential system -/

/-- The matchmaking invariant: waiting entries have pairwise-distinct user
ids (the queue is only ever written through upserts and deletes keyed on
`user_id`), no waiting user is banned, and no waiting user is a member of
an active pair. -/
def MatchInv (s : DBState) : Prop :=
  (s.waiting_queue.map WEntry.user_id).Nodup ∧
  (∀ e ∈ s.waiting_queue, is_banned s e.user_id = false) ∧
  (∀ e ∈ s.waiting_queue, get_pair s e.user_id = none)

/-! ## The fine-grained (interleaved) machine

`find_partner` is an `async` function: every `await` inside it is a point
where the asyncio event loop may run other handlers.  The phases below cut
`find_partner` exactly at its `await`ed store operations; the pure partner
selection happens inside the snapshot step because no `await` separates the
`get_waiting_users` read from the selection loop. -/

inductive FPPhase
  /-- about to run the first `remove_from_waiting(user_id)` -/
  | atRemoveSelf
  /-- about to run `get_waiting_users()` and select a candidate -/
  | atSnapshot
  /-- candidate `c` selected; about to re-run `remove_from_waiting(user_id)` -/
  | atRemoveSelfAgain (c : WEntry)
  /-- about to run `remove_from_waiting(partner["user_id"])` -/
  | atRemovePartner (c : WEntry)
  /-- about to run `connect_users(user_id, partner["user_id"])` -/
  | atConnect (c : WEntry)
  /-- no candidate; about to enqueue, notify and enter `searching` -/
  | atEnqueue
  /-- `find_partner` returned -/
  | finished
deriving DecidableEq

/-- An in-flight `find_partner` coroutine: the caller, the language read
from the caller's profile by `next_handler`, and the resume point. -/
structure Thread where
  uid : Int
  lang : String
  phase : FPPhase
deriving DecidableEq

/-- A state of the interleaved machine: the shared store plus the list of
suspended `find_partner` coroutines. -/
structure IState where
  store : DBState
  threads : List Thread
deriving DecidableEq

/-- Resume a `find_partner` coroutine for one primitive store operation.
`pid` is the `random.randint` draw consumed by `create_pair` when the
`connect_users` step runs. -/
def threadStep (t : Thread) (pid : Nat) (s : DBState) : Thread × DBState :=
  match t.phase with
  | .atRemoveSelf =>
    ({ t with phase := .atSnapshot }, (remove_from_waiting s t.uid).2)
  | .atSnapshot =>
    match partnerChoice (get_waiting_users s) t.uid t.lang with
    | some c => ({ t with phase := .atRemoveSelfAgain c }, s)
    | none => ({ t with phase := .atEnqueue }, s)
  | .atRemoveSelfAgain c =>
    ({ t with phase := .atRemovePartner c }, (remove_from_waiting s t.uid).2)
  | .atRemovePartner c =>
    ({ t with phase := .atConnect c }, (remove_from_waiting s c.user_id).2)
  | .atConnect c =>
    ({ t with phase := .finished }, connect_users s t.uid c.user_id pid)
  | .atEnqueue =>
    ({ t with phase := .finished },
     fsmSet (sendMsg (add_to_waiting s t.uid t.lang) t.uid "partnerFinding") t.uid .searching)
  | .finished => (t, s)

/-- The user an event belongs to (`message.from_user.id`); `tick` and
`ttlSweep` have no actor. -/
def Event.actor : Event → Option Int
  | .next uid _ _ => some uid
  | .stop uid _ => some uid
  | .report uid _ => some uid
  | .message uid _ _ => some uid
  | .timerCheck uid => some uid
  | .timerFire uid => some uid
  | .tick => none
  | .ttlSweep => none

/-- An action of the interleaved machine: a whole handler run atomically
for a user with no suspended coroutine, the entry of a `/next` handler into
`find_partner` (its middleware and pre-checks having just passed), or the
resumption of a suspended coroutine for one store operation. -/
inductive IAct
  | seq (ev : Event)
  | spawn (uid : Int) (lc : String)
  | tstep (i : Nat) (pid : Nat)
deriving DecidableEq

/-- Apply an action (unconditionally; see `iGuard` for the side
conditions). -/
def iApply (cfg : Cfg) (a : IAct) (σ : IState) : IState :=
  match a with
  | .seq ev => ⟨applyEvent cfg ev σ.store, σ.threads⟩
  | .spawn uid lc =>
    let s1 := (middleware σ.store uid lc).2
    let lang := match get_user s1 uid with
      | some d => d.language.getD "en"
      | none => "en"
    ⟨s1, ⟨uid, lang, .atRemoveSelf⟩ :: σ.threads⟩
  | .tstep i pid =>
    match σ.threads[i]? with
    | some t => ⟨(threadStep t pid σ.store).2, σ.threads.set i (threadStep t pid σ.store).1⟩
    | none => σ

/-- Legality of an action: events for the same user are serialized by the
gateway (one update in flight per user), so an atomic event or a spawn
requires the user to have no suspended coroutine; a spawn additionally
requires exactly the guards `next_handler` checked before calling
`find_partner` (not banned, not in a dialogue, warnings below the
threshold) evaluated on the post-middleware store, middleware itself not
having bounced the user as banned; a resumption requires the coroutine to
exist. -/
def iGuard (cfg : Cfg) (a : IAct) (σ : IState) : Bool :=
  match a with
  | .seq ev =>
    match ev.actor with
    | some u => σ.threads.all (fun t => t.uid != u)
    | none => true
  | .spawn uid lc =>
    σ.threads.all (fun t => t.uid != uid) &&
    !is_banned σ.store uid &&
    (let s1 := (middleware σ.store uid lc).2
     !is_banned s1 uid && !is_in_dialogue s1 uid &&
     decide (get_warnings s1 uid < cfg.maxWarnings) && (get_user s1 uid).isSome)
  | .tstep i _ => (σ.threads[i]?).isSome

/-- One interleaved step: a legal action applied to the state. -/
inductive IStep (cfg : Cfg) (σ : IState) : IState → Prop
  | mk (a : IAct) (hg : iGuard cfg a σ = true) : IStep cfg σ (iApply cfg a σ)

/-- The initial interleaved state: empty store, no coroutines. -/
def iInit : IState := ⟨initState, []⟩

/-- Reachability in the interleaved machine. -/
def IReach (cfg : Cfg) (σ : IState) : Prop :=
  Relation.ReflTransGen (IStep cfg) iInit σ

/-- Run a script of actions (used to exhibit concrete schedules). -/
def iExec (cfg : Cfg) (script : List IAct) (σ : IState) : IState :=
  script.foldl (fun σ a => iApply cfg a σ) σ

/-- Check that every action of a script is legal when its turn comes. -/
def iOk (cfg : Cfg) : List IAct → IState → Bool
  | [], _ => true
  | a :: as, σ => iGuard cfg a σ && iOk cfg as (iApply cfg a σ)

/-! ## Sanity checks of the embedding -/

example :
    (runEvents {} [.next 1 "en" 11]).waiting_queue =
      [{ user_id := 1, timestamp := 0, lang := "en" }] := by decide

example :
    (runEvents {} [.next 1 "en" 11, .next 2 "en" 12]).active_pairs =
      [{ user1_id := 1, user2_id := 2, pair_id := 12, created_at := 0,
         last_activity := 0, status := "active" }] := by decide

/-! ## C2 — session creation and the missing conflict check -/

/-- C2, counterexample.  The claim says `create(userA, userB)` fails with a
conflict and changes nothing when either user already has an active
session.  In the reachable state where users 2 and 3 are actively paired,
`Database.create_pair 1 2` does not fail and does change the store: it
unconditionally inserts a second active pair, after which user 2 is a
member of two active sessions at once. -/
theorem create_pair_no_conflict_check :
    (is_in_dialogue (runEvents {} [.next 2 "en" 50, .next 3 "en" 51]) 2 = true) ∧
    create_pair (runEvents {} [.next 2 "en" 50, .next 3 "en" 51]) 1 2 77 ≠
      runEvents {} [.next 2 "en" 50, .next 3 "en" 51] ∧
    ((create_pair (runEvents {} [.next 2 "en" 50, .next 3 "en" 51]) 1 2 77).active_pairs.filter
        (fun p => (p.user1_id == 2 || p.user2_id == 2) && p.status == "active")).length = 2 := by
  decide

/-! ## C5 — `/next` while already Searching is not a no-op -/

/-- C5, counterexample.  The claim says a match request from a user already
in the `Searching` state is a no-op apart from a current-state notice: it
neither removes nor re-adds the waiting entry.  In the reachable state
where user 1 is `Searching` with a waiting entry stamped at time 0, a
second `/next` at time 1 removes and re-enqueues the entry (its timestamp
becomes 1) and sends `partnerFinding` again instead of a current-state
notice. -/
theorem next_while_searching_not_noop :
    fsmGet (runEvents {} [.next 1 "en" 5, .tick]) 1 = some .searching ∧
    (runEvents {} [.next 1 "en" 5, .tick]).waiting_queue =
      [{ user_id := 1, timestamp := 0, lang := "en" }] ∧
    (runEvents {} [.next 1 "en" 5, .tick, .next 1 "en" 6]).waiting_queue =
      [{ user_id := 1, timestamp := 1, lang := "en" }] ∧
    (runEvents {} [.next 1 "en" 5, .tick, .next 1 "en" 6]).msgs =
      (runEvents {} [.next 1 "en" 5, .tick]).msgs ++ [(1, "partnerFinding")] := by
  decide

/-! ## C6 — no any-language fallback in candidate selection -/

/-- C6, counterexample.  The claim says candidate selection falls back to
any other waiting entry when no language-matching entry exists, returning
none only when nobody else waits.  The selection loop of `find_partner`
accepts only `candidate.get("lang") == user_lang`: with user 2 waiting
under language `ru`, a `/next` from user 1 (language `en`) matches nobody
and enqueues user 1, leaving both users waiting and no session created. -/
theorem no_language_fallback :
    partnerChoice [{ user_id := 2, timestamp := 0, lang := "ru" }] 1 "en" = none ∧
    ([{ user_id := 2, timestamp := 0, lang := "ru" }] : List WEntry) ≠ [] ∧
    (runEvents {} [.next 2 "ru" 5, .next 1 "en" 6]).waiting_queue.map WEntry.user_id =
      [2, 1] ∧
    (runEvents {} [.next 2 "ru" 5, .next 1 "en" 6]).active_pairs = [] := by
  decide

/-! ## C8 — an over-TTL waiting entry can still be matched -/

set_option maxRecDepth 8192 in
/-- C8, counterexample.  The claim says a waiting entry older than the
configured TTL (300 s, `expireAfterSeconds=300`) is never returned as a
match candidate.  TTL expiry is a passive store-side deletion pass, and
`find_partner` applies no age filter to its snapshot: if the pass has not
yet run, an entry enqueued at time 0 is still matched by a `/next` arriving
at time 301. -/
theorem stale_entry_matched_before_sweep :
    (runEvents {} (.next 1 "en" 5 :: List.replicate 301 .tick)).waiting_queue =
      [{ user_id := 1, timestamp := 0, lang := "en" }] ∧
    (runEvents {} (.next 1 "en" 5 :: List.replicate 301 .tick)).now = 301 ∧
    (runEvents {} (.next 1 "en" 5 :: List.replicate 301 .tick ++ [.next 2 "en" 9])).active_pairs.map
        (fun p => (p.user1_id, p.user2_id, p.status)) = [(1, 2, "active")] := by
  decide

/-! ## C9 — unreachable-recipient cleanup also bans the user -/

/-- C9, counterexample.  The claim says a send failure caused by a blocked
bot or deleted account triggers exactly the cleanup of an explicit
disconnect — session ended, waiting entry removed — and nothing more, in
particular no change to the moderation record.  In the reachable state
where users 1 and 2 are paired and user 1 has no warnings, the
`TelegramForbiddenError` branch of `send_message` (`cleanup_user`) bans
user 1 and sets their warnings to `MAX_WARNINGS` = 10, while an explicit
`/stop` from the same state leaves the moderation record untouched. -/
theorem unreachable_recipient_bans_user :
    is_in_dialogue (runEvents {} [.next 1 "en" 5, .next 2 "en" 7]) 1 = true ∧
    is_banned (runEvents {} [.next 1 "en" 5, .next 2 "en" 7]) 1 = false ∧
    get_warnings (runEvents {} [.next 1 "en" 5, .next 2 "en" 7]) 1 = 0 ∧
    is_banned (on_unreachable {} (runEvents {} [.next 1 "en" 5, .next 2 "en" 7]) 1) 1 = true ∧
    get_warnings (on_unreachable {} (runEvents {} [.next 1 "en" 5, .next 2 "en" 7]) 1) 1 = 10 ∧
    is_banned (runEvents {} [.next 1 "en" 5, .next 2 "en" 7, .stop 1 "en"]) 1 = false ∧
    get_warnings (runEvents {} [.next 1 "en" 5, .next 2 "en" 7, .stop 1 "en"]) 1 = 0 := by
  decide

/-! ## Helper lemmas: scripts -/

/-- Executing a script whose guards all hold produces interleaved steps. -/
theorem relTransGen_of_iOk (cfg : Cfg) (script : List IAct) :
    ∀ σ : IState, iOk cfg script σ = true →
      Relation.ReflTransGen (IStep cfg) σ (iExec cfg script σ) := by
  induction script with
  | nil =>
    intro σ _
    exact Relation.ReflTransGen.refl
  | cons a as ih =>
    intro σ h
    simp only [iOk, Bool.and_eq_true] at h
    exact Relation.ReflTransGen.head (IStep.mk a h.1) (ih _ h.2)

/-- A legal script reaches its final state from the initial state. -/
theorem iReach_of_ok (cfg : Cfg) (script : List IAct)
    (h : iOk cfg script iInit = true) : IReach cfg (iExec cfg script iInit) :=
  relTransGen_of_iOk cfg script iInit h

/-! ## Helper lemmas: observables depend only on their own field -/

theorem get_user_congr {s1 s2 : DBState} (h : s1.users = s2.users) (v : Int) :
    get_user s1 v = get_user s2 v := by
  simp [get_user, h]

theorem is_banned_congr {s1 s2 : DBState} (h : s1.users = s2.users) (v : Int) :
    is_banned s1 v = is_banned s2 v := by
  simp [is_banned, get_user_congr h]

theorem get_warnings_congr {s1 s2 : DBState} (h : s1.users = s2.users) (v : Int) :
    get_warnings s1 v = get_warnings s2 v := by
  simp [get_warnings, get_user_congr h]

theorem get_pair_congr {s1 s2 : DBState} (h : s1.active_pairs = s2.active_pairs)
    (v : Int) : get_pair s1 v = get_pair s2 v := by
  simp [get_pair, h]

theorem is_waiting_congr {s1 s2 : DBState} (h : s1.waiting_queue = s2.waiting_queue)
    (v : Int) : is_waiting s1 v = is_waiting s2 v := by
  simp [is_waiting, h]

/-! ## Helper lemmas: upserts of the users collection -/


theorem findUpsert_ne {uid v : Int} (hvu : v ≠ uid) {f : UserDoc → UserDoc}
    {doc : UserDoc} (hf : ∀ d : UserDoc, d.user_id = uid → (f d).user_id = uid)
    (hdoc : doc.user_id = uid) :
    ∀ l : List UserDoc,
      (upsertUser uid f doc l).find? (fun d => d.user_id == v) =
        l.find? (fun d => d.user_id == v) := by
  have huv : (uid == v) = false := beq_eq_false_iff_ne.mpr (fun h => hvu h.symm)
  intro l
  induction l with
  | nil =>
    have hdv : (doc.user_id == v) = false := by rw [hdoc]; exact huv
    simp [upsertUser, List.find?_cons, hdv]
  | cons d ds ih =>
    cases hd : (d.user_id == uid) with
    | true =>
      have hd' : d.user_id = uid := beq_iff_eq.mp hd
      have h1 : ((f d).user_id == v) = false := by rw [hf d hd']; exact huv
      have h3 : (d.user_id == v) = false := by rw [hd']; exact huv
      simp [upsertUser, hd, List.find?_cons, h1, h3]
    | false =>
      simp only [upsertUser, hd, Bool.false_eq_true, if_false]
      cases h3 : (d.user_id == v) with
      | true => simp [List.find?_cons, h3]
      | false => simp [List.find?_cons, h3, ih]

theorem findUpsert_self {uid : Int} {f : UserDoc → UserDoc} {doc : UserDoc}
    (hf : ∀ d : UserDoc, d.user_id = uid → (f d).user_id = uid)
    (hdoc : doc.user_id = uid) :
    ∀ l : List UserDoc,
      (upsertUser uid f doc l).find? (fun d => d.user_id == uid) =
        some (match l.find? (fun d => d.user_id == uid) with
              | some d => f d
              | none => doc) := by
  intro l
  induction l with
  | nil => simp [upsertUser, List.find?_cons, hdoc]
  | cons d ds ih =>
    cases hd : (d.user_id == uid) with
    | true =>
      have hd' : d.user_id = uid := beq_iff_eq.mp hd
      have h1 : ((f d).user_id == uid) = true := by
        rw [hf d hd']; exact beq_self_eq_true uid
      simp [upsertUser, hd, List.find?_cons, h1]
    | false =>
      simp [upsertUser, hd, List.find?_cons, ih]

/-! ## Helper lemmas: effect of users-collection writes on observables -/

theorem userObs_upsert {A : Type} (proj : UserDoc → A) (dflt : A) (uid v : Int)
    (f : UserDoc → UserDoc) (doc : UserDoc)
    (hf : ∀ d : UserDoc, d.user_id = uid → (f d).user_id = uid)
    (hdoc : doc.user_id = uid) (s : DBState) :
    (match (upsertUser uid f doc s.users).find? (fun d => d.user_id == v) with
     | some d => proj d
     | none => dflt) =
    if v = uid then
      (match s.users.find? (fun d => d.user_id == uid) with
       | some d => proj (f d)
       | none => proj doc)
    else
      (match s.users.find? (fun d => d.user_id == v) with
       | some d => proj d
       | none => dflt) := by
  by_cases hv : v = uid
  · subst hv
    rw [findUpsert_self hf hdoc s.users]
    simp only [if_pos rfl]
    cases s.users.find? (fun d => d.user_id == v) <;> rfl
  · rw [findUpsert_ne hv hf hdoc s.users]
    simp [hv]

theorem is_banned_ban_user (s : DBState) (uid v : Int) :
    is_banned (ban_user s uid) v = if v = uid then true else is_banned s v := by
  have h0 : is_banned (ban_user s uid) v = _ :=
    userObs_upsert docBanned false uid v (fun d => { d with banned := some true })
      ({ user_id := uid, banned := some true }) (fun d hh => hh) rfl s
  rw [h0]
  by_cases hv : v = uid
  · subst hv
    simp only [if_pos rfl]
    cases s.users.find? (fun d => d.user_id == v) <;> simp [docBanned]
  · simp only [if_neg hv]
    rfl

theorem get_warnings_ban_user (s : DBState) (uid v : Int) :
    get_warnings (ban_user s uid) v = get_warnings s v := by
  have h0 : get_warnings (ban_user s uid) v = _ :=
    userObs_upsert docWarnings 0 uid v (fun d => { d with banned := some true })
      ({ user_id := uid, banned := some true }) (fun d hh => hh) rfl s
  rw [h0]
  by_cases hv : v = uid
  · subst hv
    simp only [if_pos rfl]
    unfold get_warnings get_user
    cases s.users.find? (fun d => d.user_id == v) <;> simp [docWarnings]
  · simp only [if_neg hv]
    rfl

theorem is_banned_set_warnings (s : DBState) (uid v w : Int) :
    is_banned (set_warnings s uid w) v = is_banned s v := by
  have h0 : is_banned (set_warnings s uid w) v = _ :=
    userObs_upsert docBanned false uid v (fun d => { d with warnings := some w })
      ({ user_id := uid, warnings := some w }) (fun d hh => hh) rfl s
  rw [h0]
  by_cases hv : v = uid
  · subst hv
    simp only [if_pos rfl]
    unfold is_banned get_user
    cases s.users.find? (fun d => d.user_id == v) <;> simp [docBanned]
  · simp only [if_neg hv]
    rfl

theorem get_warnings_set_warnings (s : DBState) (uid v w : Int) :
    get_warnings (set_warnings s uid w) v = if v = uid then w else get_warnings s v := by
  have h0 : get_warnings (set_warnings s uid w) v = _ :=
    userObs_upsert docWarnings 0 uid v (fun d => { d with warnings := some w })
      ({ user_id := uid, warnings := some w }) (fun d hh => hh) rfl s
  rw [h0]
  by_cases hv : v = uid
  · subst hv
    simp only [if_pos rfl]
    cases s.users.find? (fun d => d.user_id == v) <;> simp [docWarnings]
  · simp only [if_neg hv]
    rfl

theorem is_banned_add_warning (s : DBState) (uid v : Int) :
    is_banned (add_warning s uid) v = is_banned s v := by
  have h0 : is_banned (add_warning s uid) v = _ :=
    userObs_upsert docBanned false uid v
      (fun d => { d with warnings := some (docWarnings d + 1) })
      ({ user_id := uid, warnings := some 1 }) (fun d hh => hh) rfl s
  rw [h0]
  by_cases hv : v = uid
  · subst hv
    simp only [if_pos rfl]
    unfold is_banned get_user
    cases s.users.find? (fun d => d.user_id == v) <;> simp [docBanned]
  · simp only [if_neg hv]
    rfl

theorem get_warnings_add_warning (s : DBState) (uid v : Int) :
    get_warnings (add_warning s uid) v =
      if v = uid then get_warnings s uid + 1 else get_warnings s v := by
  have h0 : get_warnings (add_warning s uid) v = _ :=
    userObs_upsert docWarnings 0 uid v
      (fun d => { d with warnings := some (docWarnings d + 1) })
      ({ user_id := uid, warnings := some 1 }) (fun d hh => hh) rfl s
  rw [h0]
  by_cases hv : v = uid
  · subst hv
    simp only [if_pos rfl]
    unfold get_warnings get_user
    cases s.users.find? (fun d => d.user_id == v) <;> simp [docWarnings]
  · simp only [if_neg hv]
    rfl

theorem is_banned_add_user (s : DBState) (uid v : Int) (lang : String) :
    is_banned (add_user s uid lang) v = if v = uid then false else is_banned s v := by
  have h0 : is_banned (add_user s uid lang) v = _ :=
    userObs_upsert docBanned false uid v
      (fun _ => { user_id := uid, language := some lang, warnings := some 0,
                  banned := some false, created_at := some s.now, last_active := some s.now })
      ({ user_id := uid, language := some lang, warnings := some 0,
         banned := some false, created_at := some s.now, last_active := some s.now })
      (fun d hh => rfl) rfl s
  rw [h0]
  by_cases hv : v = uid
  · subst hv
    simp only [if_pos rfl]
    cases s.users.find? (fun d => d.user_id == v) <;> simp [docBanned]
  · simp only [if_neg hv]
    rfl

theorem get_warnings_add_user (s : DBState) (uid v : Int) (lang : String) :
    get_warnings (add_user s uid lang) v = if v = uid then 0 else get_warnings s v := by
  have h0 : get_warnings (add_user s uid lang) v = _ :=
    userObs_upsert docWarnings 0 uid v
      (fun _ => { user_id := uid, language := some lang, warnings := some 0,
                  banned := some false, created_at := some s.now, last_active := some s.now })
      ({ user_id := uid, language := some lang, warnings := some 0,
         banned := some false, created_at := some s.now, last_active := some s.now })
      (fun d hh => rfl) rfl s
  rw [h0]
  by_cases hv : v = uid
  · subst hv
    simp only [if_pos rfl]
    cases s.users.find? (fun d => d.user_id == v) <;> simp [docWarnings]
  · simp only [if_neg hv]
    rfl

theorem get_user_add_user_isSome (s : DBState) (uid : Int) (lang : String) :
    (get_user (add_user s uid lang) uid).isSome = true := by
  show ((upsertUser uid _ _ s.users).find? (fun d => d.user_id == uid)).isSome = true
  rw [@findUpsert_self uid
    (fun _ => { user_id := uid, language := some lang, warnings := some 0,
                banned := some false, created_at := some s.now, last_active := some s.now })
    ({ user_id := uid, language := some lang, warnings := some 0,
       banned := some false, created_at := some s.now, last_active := some s.now })
    (fun d hh => rfl) rfl s.users]
  rfl

/-! ## Helper lemmas: `update_user_activity` -/

theorem findMap_userid (g : UserDoc → UserDoc)
    (hg : ∀ d : UserDoc, (g d).user_id = d.user_id) (v : Int) :
    ∀ l : List UserDoc,
      (l.map g).find? (fun d => d.user_id == v) =
        (l.find? (fun d => d.user_id == v)).map g := by
  intro l
  induction l with
  | nil => simp
  | cons d ds ih =>
    cases hd : (d.user_id == v) with
    | true => simp [List.find?_cons, hd, hg]
    | false => simp [List.find?_cons, hd, hg, ih]

theorem is_banned_update_user_activity (s : DBState) (uid v : Int) :
    is_banned (update_user_activity s uid) v = is_banned s v := by
  unfold is_banned get_user update_user_activity
  rw [show ({ s with users := s.users.map (fun d =>
        if d.user_id == uid then { d with last_active := some s.now } else d) } :
      DBState).users = s.users.map _ from rfl]
  rw [findMap_userid _ (fun d => by split <;> rfl) v]
  cases s.users.find? (fun d => d.user_id == v) with
  | none => rfl
  | some d =>
    show docBanned (if (d.user_id == uid) = true
        then { d with last_active := some s.now } else d) = docBanned d
    split <;> rfl

theorem get_warnings_update_user_activity (s : DBState) (uid v : Int) :
    get_warnings (update_user_activity s uid) v = get_warnings s v := by
  unfold get_warnings get_user update_user_activity
  rw [show ({ s with users := s.users.map (fun d =>
        if d.user_id == uid then { d with last_active := some s.now } else d) } :
      DBState).users = s.users.map _ from rfl]
  rw [findMap_userid _ (fun d => by split <;> rfl) v]
  cases s.users.find? (fun d => d.user_id == v) with
  | none => rfl
  | some d =>
    show docWarnings (if (d.user_id == uid) = true
        then { d with last_active := some s.now } else d) = docWarnings d
    split <;> rfl

theorem get_user_update_user_activity_isSome (s : DBState) (uid v : Int) :
    (get_user (update_user_activity s uid) v).isSome = (get_user s v).isSome := by
  unfold get_user update_user_activity
  rw [show ({ s with users := s.users.map (fun d =>
        if d.user_id == uid then { d with last_active := some s.now } else d) } :
      DBState).users = s.users.map _ from rfl]
  rw [findMap_userid _ (fun d => by split <;> rfl) v]
  cases s.users.find? (fun d => d.user_id == v) <;> rfl

/-! ## Helper lemmas: middleware -/

theorem middleware_pairs (s : DBState) (uid : Int) (lc : String) :
    ((middleware s uid lc).2).active_pairs = s.active_pairs := by
  unfold middleware
  by_cases hb : is_banned s uid = true
  · simp [hb, sendMsg]
  · simp only [hb, Bool.false_eq_true, if_false]
    unfold update_user_activity
    split <;> rfl

theorem middleware_waiting (s : DBState) (uid : Int) (lc : String) :
    ((middleware s uid lc).2).waiting_queue = s.waiting_queue := by
  unfold middleware
  by_cases hb : is_banned s uid = true
  · simp [hb, sendMsg]
  · simp only [hb, Bool.false_eq_true, if_false]
    unfold update_user_activity
    split <;> rfl

theorem middleware_fsm (s : DBState) (uid : Int) (lc : String) :
    ((middleware s uid lc).2).fsm = s.fsm := by
  unfold middleware
  by_cases hb : is_banned s uid = true
  · simp [hb, sendMsg]
  · simp only [hb, Bool.false_eq_true, if_false]
    unfold update_user_activity
    split <;> rfl

theorem middleware_reporting (s : DBState) (uid : Int) (lc : String) :
    ((middleware s uid lc).2).reportingMap = s.reportingMap := by
  unfold middleware
  by_cases hb : is_banned s uid = true
  · simp [hb, sendMsg]
  · simp only [hb, Bool.false_eq_true, if_false]
    unfold update_user_activity
    split <;> rfl

theorem middleware_now (s : DBState) (uid : Int) (lc : String) :
    ((middleware s uid lc).2).now = s.now := by
  unfold middleware
  by_cases hb : is_banned s uid = true
  · simp [hb, sendMsg]
  · simp only [hb, Bool.false_eq_true, if_false]
    unfold update_user_activity
    split <;> rfl

theorem middleware_fst (s : DBState) (uid : Int) (lc : String) :
    (middleware s uid lc).1 = !is_banned s uid := by
  unfold middleware
  by_cases hb : is_banned s uid = true
  · simp [hb]
  · simp only [hb, Bool.false_eq_true, if_false]
    simp [Bool.not_eq_true] at hb
    simp [hb]

theorem middleware_msgs (s : DBState) (uid : Int) (lc : String)
    (hb : is_banned s uid = false) :
    ((middleware s uid lc).2).msgs = s.msgs := by
  unfold middleware
  simp only [hb, Bool.false_eq_true, if_false]
  unfold update_user_activity
  split <;> rfl

theorem middleware_is_banned (s : DBState) (uid v : Int) (lc : String) :
    is_banned ((middleware s uid lc).2) v = is_banned s v := by
  unfold middleware
  by_cases hb : is_banned s uid = true
  · simp [hb]
    rfl
  · simp only [hb, Bool.false_eq_true, if_false]
    rw [is_banned_update_user_activity]
    split
    · rfl
    · rename_i hex
      rw [is_banned_add_user]
      by_cases hv : v = uid
      · subst hv
        simp only [if_pos rfl]
        unfold is_banned
        cases hgu : get_user s v with
        | none => rfl
        | some d =>
          exfalso
          apply hex
          unfold is_existing_user
          rw [hgu]
          rfl
      · simp [hv]

theorem middleware_get_warnings (s : DBState) (uid v : Int) (lc : String) :
    get_warnings ((middleware s uid lc).2) v = get_warnings s v := by
  unfold middleware
  by_cases hb : is_banned s uid = true
  · simp [hb]
    rfl
  · simp only [hb, Bool.false_eq_true, if_false]
    rw [get_warnings_update_user_activity]
    split
    · rfl
    · rename_i hex
      rw [get_warnings_add_user]
      by_cases hv : v = uid
      · subst hv
        simp only [if_pos rfl]
        unfold get_warnings
        cases hgu : get_user s v with
        | none => rfl
        | some d =>
          exfalso
          apply hex
          unfold is_existing_user
          rw [hgu]
          rfl
      · simp [hv]

theorem middleware_get_user_isSome (s : DBState) (uid : Int) (lc : String)
    (hb : is_banned s uid = false) :
    (get_user ((middleware s uid lc).2) uid).isSome = true := by
  unfold middleware
  simp only [hb, Bool.false_eq_true, if_false]
  rw [get_user_update_user_activity_isSome]
  split
  · rename_i hex
    exact hex
  · exact get_user_add_user_isSome s uid lc

/-! ## Helper lemmas: the pairs collection -/

theorem get_pair_none_iff (s : DBState) (v : Int) :
    get_pair s v = none ↔
      ∀ p ∈ s.active_pairs,
        ((p.user1_id == v || p.user2_id == v) && p.status == "active") = false := by
  unfold get_pair
  rw [List.find?_eq_none]
  constructor
  · intro h p hp
    have := h p hp
    simpa using this
  · intro h p hp
    simp [h p hp]

theorem get_pair_create_pair_other (s : DBState) (u1 u2 v : Int) (pid : Nat)
    (hv1 : v ≠ u1) (hv2 : v ≠ u2) :
    get_pair (create_pair s u1 u2 pid) v = get_pair s v := by
  unfold get_pair create_pair
  rw [show ({ s with active_pairs := s.active_pairs ++
      [{ user1_id := min u1 u2, user2_id := max u1 u2, pair_id := pid,
         created_at := s.now, last_activity := s.now, status := "active" }] } :
      DBState).active_pairs = s.active_pairs ++ _ from rfl]
  rw [List.find?_append]
  have hmin : (min u1 u2 == v) = false := by
    rcases min_choice u1 u2 with h | h <;> rw [h] <;>
      simp [beq_eq_false_iff_ne] <;> omega
  have hmax : (max u1 u2 == v) = false := by
    rcases max_choice u1 u2 with h | h <;> rw [h] <;>
      simp [beq_eq_false_iff_ne] <;> omega
  simp [List.find?_cons, hmin, hmax]

theorem is_in_dialogue_create_pair_mem (s : DBState) (u1 u2 : Int) (pid : Nat)
    (v : Int) (hv : v = u1 ∨ v = u2) :
    is_in_dialogue (create_pair s u1 u2 pid) v = true := by
  unfold is_in_dialogue get_pair create_pair
  rw [show ({ s with active_pairs := s.active_pairs ++
      [{ user1_id := min u1 u2, user2_id := max u1 u2, pair_id := pid,
         created_at := s.now, last_activity := s.now, status := "active" }] } :
      DBState).active_pairs = s.active_pairs ++ _ from rfl]
  rw [List.find?_append]
  have hm : ((min u1 u2 == v) || (max u1 u2 == v)) = true := by
    rcases min_choice u1 u2 with h1 | h1 <;> rcases max_choice u1 u2 with h2 | h2 <;>
      rw [h1, h2] <;> rcases hv with h | h <;> subst h <;> simp <;> omega
  cases hfind : s.active_pairs.find? (fun p =>
      (p.user1_id == v || p.user2_id == v) && p.status == "active") <;>
    simp [List.find?_cons, hm, Option.or]

theorem mem_endGo (pid : Nat) (st : String) :
    ∀ (l : List PairDoc) (p : PairDoc),
      p ∈ end_pair.go pid st l → p ∈ l ∨ p.status = st := by
  intro l
  induction l with
  | nil => intro p hp; exact absurd hp (List.not_mem_nil p)
  | cons q qs ih =>
    intro p hp
    unfold end_pair.go at hp
    by_cases hq : (q.pair_id == pid) = true
    · rw [if_pos hq] at hp
      rcases List.mem_cons.mp hp with h | h
      · right; rw [h]
      · left; exact List.mem_cons_of_mem q h
    · rw [if_neg hq] at hp
      rcases List.mem_cons.mp hp with h | h
      · left; rw [h]; exact List.mem_cons_self q qs
      · rcases ih p h with h2 | h2
        · left; exact List.mem_cons_of_mem q h2
        · right; exact h2

theorem get_pair_end_pair_none (s : DBState) (pid : Nat) (v : Int)
    (h : get_pair s v = none) : get_pair (end_pair s pid "ended") v = none := by
  rw [get_pair_none_iff] at h ⊢
  intro p hp
  rcases mem_endGo pid "ended" s.active_pairs p hp with h2 | h2
  · exact h p h2
  · simp [h2]

theorem endGo_unique_active (pr : PairDoc) :
    ∀ l : List PairDoc,
      l.filter (fun p => p.status == "active") = [pr] →
      (∀ p ∈ l, p.pair_id = pr.pair_id → p = pr) →
      (end_pair.go pr.pair_id "ended" l).filter (fun p => p.status == "active") = [] := by
  intro l
  induction l with
  | nil => intro hacts _; simp [end_pair.go]
  | cons q qs ih =>
    intro hacts hpid
    unfold end_pair.go
    by_cases hq : (q.pair_id == pr.pair_id) = true
    · rw [if_pos hq]
      have hqpr : q = pr := hpid q (List.mem_cons_self q qs) (beq_iff_eq.mp hq)
      have hqact : (q.status == "active") = true := by
        by_contra hno
        rw [List.filter_cons, if_neg hno] at hacts
        have hmem : pr ∈ List.filter (fun p => p.status == "active") qs := by
          rw [hacts]; exact List.mem_singleton.mpr rfl
        have h2 := (List.mem_filter.mp hmem).2
        rw [← hqpr] at h2
        exact hno h2
      rw [List.filter_cons, if_pos hqact] at hacts
      have hqs : List.filter (fun p => p.status == "active") qs = [] :=
        (List.cons_eq_cons.mp hacts).2
      have hend : ((({ q with status := "ended" } : PairDoc).status == "active") = true) →
          False := by
        intro h
        exact absurd h (by rw [show (({ q with status := "ended" } : PairDoc).status ==
          "active") = false from rfl]; simp)
      rw [List.filter_cons, if_neg hend]
      exact hqs
    · rw [if_neg hq]
      have hqne : q ≠ pr := fun h => hq (by rw [h]; exact beq_self_eq_true _)
      have hqact : (q.status == "active") = false := by
        cases hqa : (q.status == "active") with
        | false => rfl
        | true =>
          rw [List.filter_cons, if_pos hqa] at hacts
          exact absurd (List.cons_eq_cons.mp hacts).1 hqne
      rw [List.filter_cons, if_neg (by simp [hqact])] at hacts
      rw [List.filter_cons, if_neg (by simp [hqact])]
      exact ih hacts (fun p hp => hpid p (List.mem_cons_of_mem q hp))

theorem find_none_of_no_active (v : Int) :
    ∀ l : List PairDoc,
      l.filter (fun p => p.status == "active") = [] →
      l.find? (fun p => (p.user1_id == v || p.user2_id == v) && p.status == "active") =
        none := by
  intro l h
  rw [List.find?_eq_none]
  intro p hp
  have : (p.status == "active") = false := by
    cases hpa : (p.status == "active") with
    | false => rfl
    | true =>
      exfalso
      have : p ∈ l.filter (fun p => p.status == "active") :=
        List.mem_filter.mpr ⟨hp, hpa⟩
      rw [h] at this
      exact absurd this (List.not_mem_nil p)
  simp [this]

theorem get_pair_singleton_active (v : Int) (pr : PairDoc)
    (hmem : (pr.user1_id == v || pr.user2_id == v) = true) :
    ∀ l : List PairDoc,
      l.filter (fun p => p.status == "active") = [pr] →
      l.find? (fun p => (p.user1_id == v || p.user2_id == v) && p.status == "active") =
        some pr := by
  intro l
  induction l with
  | nil => intro hacts; simp at hacts
  | cons q qs ih =>
    intro hacts
    by_cases hqa : (q.status == "active") = true
    · rw [List.filter_cons, if_pos hqa] at hacts
      have hq : q = pr := (List.cons_eq_cons.mp hacts).1
      subst hq
      have hcond : ((q.user1_id == v || q.user2_id == v) && q.status == "active") = true := by
        simp [hmem, hqa]
      simp [List.find?_cons, hcond]
    · rw [List.filter_cons, if_neg (by simp [hqa])] at hacts
      have hcond : ((q.user1_id == v || q.user2_id == v) && q.status == "active") = false := by
        simp only [Bool.not_eq_true] at hqa
        simp [hqa]
      rw [List.find?_cons, hcond]
      exact ih hacts

/-! ## Helper lemmas: the waiting queue -/

theorem removeGo_sublist (uid : Int) :
    ∀ l : List WEntry, List.Sublist (remove_from_waiting.go uid l) l := by
  intro l
  induction l with
  | nil => exact List.Sublist.refl []
  | cons e es ih =>
    unfold remove_from_waiting.go
    by_cases he : (e.user_id == uid) = true
    · rw [if_pos he]
      exact List.sublist_cons_self e es
    · rw [if_neg he]
      exact List.Sublist.cons₂ e ih

theorem mem_removeGo (uid : Int) {l : List WEntry} {e : WEntry}
    (h : e ∈ remove_from_waiting.go uid l) : e ∈ l :=
  (removeGo_sublist uid l).subset h

theorem removeGo_nodup (uid : Int) {l : List WEntry}
    (h : (l.map WEntry.user_id).Nodup) :
    ((remove_from_waiting.go uid l).map WEntry.user_id).Nodup :=
  h.sublist ((removeGo_sublist uid l).map WEntry.user_id)

theorem mem_removeGo_ne (uid : Int) :
    ∀ l : List WEntry, (l.map WEntry.user_id).Nodup →
      ∀ e ∈ remove_from_waiting.go uid l, e.user_id ≠ uid := by
  intro l
  induction l with
  | nil => intro _ e he; exact absurd he (List.not_mem_nil e)
  | cons q qs ih =>
    intro hnd e he
    unfold remove_from_waiting.go at he
    rw [List.map_cons, List.nodup_cons] at hnd
    by_cases hq : (q.user_id == uid) = true
    · rw [if_pos hq] at he
      intro heq
      apply hnd.1
      rw [beq_iff_eq.mp hq, ← heq]
      exact List.mem_map_of_mem WEntry.user_id he
    · rw [if_neg hq] at he
      rcases List.mem_cons.mp he with h | h
      · rw [h]
        exact fun hh => hq (beq_iff_eq.mpr hh)
      · exact ih hnd.2 e h

theorem is_waiting_removeGo_self (uid : Int) (l : List WEntry)
    (hnd : (l.map WEntry.user_id).Nodup) :
    (remove_from_waiting.go uid l).find? (fun e => e.user_id == uid) = none := by
  rw [List.find?_eq_none]
  intro e he
  simp only [Bool.not_eq_true, beq_eq_false_iff_ne]
  exact mem_removeGo_ne uid l hnd e he

theorem mem_addGo (s : DBState) (uid : Int) (lang : String) :
    ∀ l : List WEntry, ∀ e ∈ add_to_waiting.go s uid lang l,
      e = { user_id := uid, timestamp := s.now, lang := lang } ∨ e ∈ l := by
  intro l
  induction l with
  | nil =>
    intro e he
    unfold add_to_waiting.go at he
    rcases List.mem_cons.mp he with h | h
    · exact Or.inl h
    · exact absurd h (List.not_mem_nil e)
  | cons q qs ih =>
    intro e he
    unfold add_to_waiting.go at he
    by_cases hq : (q.user_id == uid) = true
    · rw [if_pos hq] at he
      rcases List.mem_cons.mp he with h | h
      · exact Or.inl h
      · exact Or.inr (List.mem_cons_of_mem q h)
    · rw [if_neg hq] at he
      rcases List.mem_cons.mp he with h | h
      · rw [h]; exact Or.inr (List.mem_cons_self q qs)
      · rcases ih e h with h2 | h2
        · exact Or.inl h2
        · exact Or.inr (List.mem_cons_of_mem q h2)

theorem mem_ids_addGo (s : DBState) (uid : Int) (lang : String) :
    ∀ (l : List WEntry) (v : Int),
      v ∈ (add_to_waiting.go s uid lang l).map WEntry.user_id →
      v = uid ∨ v ∈ l.map WEntry.user_id := by
  intro l v hv
  rcases List.mem_map.mp hv with ⟨e, he, hev⟩
  rcases mem_addGo s uid lang l e he with h | h
  · left; rw [← hev, h]
  · right; rw [← hev]; exact List.mem_map_of_mem WEntry.user_id h

theorem addGo_nodup (s : DBState) (uid : Int) (lang : String) :
    ∀ l : List WEntry, (l.map WEntry.user_id).Nodup →
      ((add_to_waiting.go s uid lang l).map WEntry.user_id).Nodup := by
  intro l
  induction l with
  | nil => intro _; simp [add_to_waiting.go]
  | cons q qs ih =>
    intro hnd
    rw [List.map_cons, List.nodup_cons] at hnd
    unfold add_to_waiting.go
    by_cases hq : (q.user_id == uid) = true
    · rw [if_pos hq, List.map_cons, List.nodup_cons]
      refine ⟨?_, hnd.2⟩
      rw [show ({ user_id := uid, timestamp := s.now, lang := lang } :
        WEntry).user_id = uid from rfl]
      rw [← beq_iff_eq.mp hq]
      exact hnd.1
    · rw [if_neg hq, List.map_cons, List.nodup_cons]
      refine ⟨?_, ih hnd.2⟩
      intro hmem
      rcases mem_ids_addGo s uid lang qs q.user_id hmem with h | h
      · exact hq (beq_iff_eq.mpr h)
      · exact hnd.1 h

/-! ## Helper lemmas: FSM contexts and the reporting dict -/

theorem fsmGet_fsmClear_self (s : DBState) (uid : Int) :
    fsmGet (fsmClear s uid) uid = none := by
  unfold fsmGet fsmClear
  rw [show ({ s with fsm := s.fsm.filter (fun p => p.1 != uid) } : DBState).fsm =
    s.fsm.filter (fun p => p.1 != uid) from rfl]
  have : (s.fsm.filter (fun p => p.1 != uid)).find? (fun p => p.1 == uid) = none := by
    rw [List.find?_eq_none]
    intro p hp
    have h2 := (List.mem_filter.mp hp).2
    simp only [bne_iff_ne, ne_eq] at h2
    simp [h2]
  rw [this]
  rfl

theorem reportingGet_reportingDel_self (s : DBState) (uid : Int) :
    reportingGet (reportingDel s uid) uid = none := by
  unfold reportingGet reportingDel
  rw [show ({ s with reportingMap := s.reportingMap.filter (fun p => p.1 != uid) } :
    DBState).reportingMap = s.reportingMap.filter (fun p => p.1 != uid) from rfl]
  have : (s.reportingMap.filter (fun p => p.1 != uid)).find? (fun p => p.1 == uid) =
      none := by
    rw [List.find?_eq_none]
    intro p hp
    have h2 := (List.mem_filter.mp hp).2
    simp only [bne_iff_ne, ne_eq] at h2
    simp [h2]
  rw [this]
  rfl

/-! ## Helper lemmas: partner selection -/

theorem partnerChoice_spec (uid : Int) (lang : String) :
    ∀ (l : List WEntry) (c : WEntry),
      partnerChoice l uid lang = some c →
      c ∈ l ∧ c.user_id ≠ uid ∧ c.lang = lang := by
  intro l
  induction l with
  | nil => intro c hc; simp [partnerChoice] at hc
  | cons q qs ih =>
    intro c hc
    unfold partnerChoice at hc
    by_cases hq : (q.user_id != uid && q.lang == lang) = true
    · rw [if_pos hq] at hc
      have hq2 := hq
      simp only [Bool.and_eq_true] at hq2
      rcases hq2 with ⟨h1, h2⟩
      refine ⟨?_, ?_, ?_⟩
      · rw [← Option.some_inj.mp hc]; exact List.mem_cons_self q qs
      · rw [← Option.some_inj.mp hc]; exact bne_iff_ne.mp h1
      · rw [← Option.some_inj.mp hc]; exact beq_iff_eq.mp h2
    · rw [if_neg hq] at hc
      rcases ih c hc with ⟨h1, h2, h3⟩
      exact ⟨List.mem_cons_of_mem q h1, h2, h3⟩

theorem partnerChoice_none (uid : Int) (lang : String) :
    ∀ l : List WEntry,
      partnerChoice l uid lang = none →
      ∀ c ∈ l, c.user_id = uid ∨ c.lang ≠ lang := by
  intro l
  induction l with
  | nil => intro _ c hc; exact absurd hc (List.not_mem_nil c)
  | cons q qs ih =>
    intro hn c hc
    unfold partnerChoice at hn
    by_cases hq : (q.user_id != uid && q.lang == lang) = true
    · rw [if_pos hq] at hn
      exact absurd hn (Option.some_ne_none q)
    · rw [if_neg hq] at hn
      rcases List.mem_cons.mp hc with h | h
      · subst h
        rcases Bool.and_eq_false_iff.mp (Bool.not_eq_true _ ▸ hq : _ = false) with h1 | h1
        · left
          have := bne_eq_false_iff_eq.mp h1
          exact this
        · right
          exact beq_eq_false_iff_ne.mp h1
      · exact ih hn c h

/-! ## C10 — profile queries on an unknown user are total with defaults -/

/-- C10.  For a `user_id` that occurs in no stored user document and in no
pair document, every profile query returns its default instead of failing:
`is_banned` is `false`, `get_warnings` is `0`, `get_partner_id` is `none`
and `get_user_language` is `none`. -/
theorem absent_user_defaults (s : DBState) (uid : Int)
    (hu : ∀ d ∈ s.users, d.user_id ≠ uid)
    (hp : ∀ p ∈ s.active_pairs, p.user1_id ≠ uid ∧ p.user2_id ≠ uid) :
    is_banned s uid = false ∧ get_warnings s uid = 0 ∧
    get_partner_id s uid = none ∧ get_user_language s uid = none := by
  have hgu : get_user s uid = none := by
    unfold get_user
    rw [List.find?_eq_none]
    intro d hd
    simp only [Bool.not_eq_true, beq_eq_false_iff_ne]
    exact hu d hd
  have hgp : get_pair s uid = none := by
    unfold get_pair
    rw [List.find?_eq_none]
    intro p hpm
    rcases hp p hpm with ⟨h1, h2⟩
    simp [h1, h2]
  refine ⟨?_, ?_, ?_, ?_⟩
  · unfold is_banned; rw [hgu]
  · unfold get_warnings; rw [hgu]
  · unfold get_partner_id; rw [hgp]
  · unfold get_user_language; rw [hgu]

/-- C10, witness: in the reachable state where only user 2 exists and no
pair was ever formed, the queries for user 1 return the defaults. -/
theorem absent_user_defaults_witness :
    (∀ d ∈ (runEvents {} [.next 2 "en" 5]).users, d.user_id ≠ (1 : Int)) ∧
    (∀ p ∈ (runEvents {} [.next 2 "en" 5]).active_pairs,
      p.user1_id ≠ (1 : Int) ∧ p.user2_id ≠ (1 : Int)) ∧
    (is_banned (runEvents {} [.next 2 "en" 5]) 1 = false ∧
     get_warnings (runEvents {} [.next 2 "en" 5]) 1 = 0 ∧
     get_partner_id (runEvents {} [.next 2 "en" 5]) 1 = none ∧
     get_user_language (runEvents {} [.next 2 "en" 5]) 1 = none) :=
  ⟨by decide, by decide,
   absent_user_defaults (runEvents {} [.next 2 "en" 5]) 1 (by decide) (by decide)⟩

/-! ## Helper lemmas: projections untouched by each primitive -/

@[simp] theorem sendMsg_users (s : DBState) (u : Int) (k : String) :
    (sendMsg s u k).users = s.users := rfl
@[simp] theorem sendMsg_pairs (s : DBState) (u : Int) (k : String) :
    (sendMsg s u k).active_pairs = s.active_pairs := rfl
@[simp] theorem sendMsg_waiting (s : DBState) (u : Int) (k : String) :
    (sendMsg s u k).waiting_queue = s.waiting_queue := rfl
@[simp] theorem sendMsg_reporting (s : DBState) (u : Int) (k : String) :
    (sendMsg s u k).reportingMap = s.reportingMap := rfl
@[simp] theorem sendMsg_fsm (s : DBState) (u : Int) (k : String) :
    (sendMsg s u k).fsm = s.fsm := rfl
@[simp] theorem sendMsg_now (s : DBState) (u : Int) (k : String) :
    (sendMsg s u k).now = s.now := rfl
@[simp] theorem sendMsg_msgs (s : DBState) (u : Int) (k : String) :
    (sendMsg s u k).msgs = s.msgs ++ [(u, k)] := rfl

@[simp] theorem fsmSet_users (s : DBState) (u : Int) (st : FsmSt) :
    (fsmSet s u st).users = s.users := rfl
@[simp] theorem fsmSet_pairs (s : DBState) (u : Int) (st : FsmSt) :
    (fsmSet s u st).active_pairs = s.active_pairs := rfl
@[simp] theorem fsmSet_waiting (s : DBState) (u : Int) (st : FsmSt) :
    (fsmSet s u st).waiting_queue = s.waiting_queue := rfl
@[simp] theorem fsmSet_reporting (s : DBState) (u : Int) (st : FsmSt) :
    (fsmSet s u st).reportingMap = s.reportingMap := rfl
@[simp] theorem fsmSet_msgs (s : DBState) (u : Int) (st : FsmSt) :
    (fsmSet s u st).msgs = s.msgs := rfl
@[simp] theorem fsmSet_now (s : DBState) (u : Int) (st : FsmSt) :
    (fsmSet s u st).now = s.now := rfl

@[simp] theorem fsmClear_users (s : DBState) (u : Int) :
    (fsmClear s u).users = s.users := rfl
@[simp] theorem fsmClear_pairs (s : DBState) (u : Int) :
    (fsmClear s u).active_pairs = s.active_pairs := rfl
@[simp] theorem fsmClear_waiting (s : DBState) (u : Int) :
    (fsmClear s u).waiting_queue = s.waiting_queue := rfl
@[simp] theorem fsmClear_reporting (s : DBState) (u : Int) :
    (fsmClear s u).reportingMap = s.reportingMap := rfl
@[simp] theorem fsmClear_msgs (s : DBState) (u : Int) :
    (fsmClear s u).msgs = s.msgs := rfl
@[simp] theorem fsmClear_now (s : DBState) (u : Int) :
    (fsmClear s u).now = s.now := rfl

@[simp] theorem reportingSet_users (s : DBState) (u p : Int) :
    (reportingSet s u p).users = s.users := rfl
@[simp] theorem reportingSet_pairs (s : DBState) (u p : Int) :
    (reportingSet s u p).active_pairs = s.active_pairs := rfl
@[simp] theorem reportingSet_waiting (s : DBState) (u p : Int) :
    (reportingSet s u p).waiting_queue = s.waiting_queue := rfl
@[simp] theorem reportingSet_fsm (s : DBState) (u p : Int) :
    (reportingSet s u p).fsm = s.fsm := rfl
@[simp] theorem reportingSet_msgs (s : DBState) (u p : Int) :
    (reportingSet s u p).msgs = s.msgs := rfl
@[simp] theorem reportingSet_now (s : DBState) (u p : Int) :
    (reportingSet s u p).now = s.now := rfl

@[simp] theorem reportingDel_users (s : DBState) (u : Int) :
    (reportingDel s u).users = s.users := rfl
@[simp] theorem reportingDel_pairs (s : DBState) (u : Int) :
    (reportingDel s u).active_pairs = s.active_pairs := rfl
@[simp] theorem reportingDel_waiting (s : DBState) (u : Int) :
    (reportingDel s u).waiting_queue = s.waiting_queue := rfl
@[simp] theorem reportingDel_fsm (s : DBState) (u : Int) :
    (reportingDel s u).fsm = s.fsm := rfl
@[simp] theorem reportingDel_msgs (s : DBState) (u : Int) :
    (reportingDel s u).msgs = s.msgs := rfl
@[simp] theorem reportingDel_now (s : DBState) (u : Int) :
    (reportingDel s u).now = s.now := rfl

@[simp] theorem ban_user_pairs (s : DBState) (u : Int) :
    (ban_user s u).active_pairs = s.active_pairs := rfl
@[simp] theorem ban_user_waiting (s : DBState) (u : Int) :
    (ban_user s u).waiting_queue = s.waiting_queue := rfl
@[simp] theorem ban_user_reporting (s : DBState) (u : Int) :
    (ban_user s u).reportingMap = s.reportingMap := rfl
@[simp] theorem ban_user_fsm (s : DBState) (u : Int) :
    (ban_user s u).fsm = s.fsm := rfl
@[simp] theorem ban_user_msgs (s : DBState) (u : Int) :
    (ban_user s u).msgs = s.msgs := rfl
@[simp] theorem ban_user_now (s : DBState) (u : Int) :
    (ban_user s u).now = s.now := rfl

@[simp] theorem set_warnings_pairs (s : DBState) (u w : Int) :
    (set_warnings s u w).active_pairs = s.active_pairs := rfl
@[simp] theorem set_warnings_waiting (s : DBState) (u w : Int) :
    (set_warnings s u w).waiting_queue = s.waiting_queue := rfl
@[simp] theorem set_warnings_reporting (s : DBState) (u w : Int) :
    (set_warnings s u w).reportingMap = s.reportingMap := rfl
@[simp] theorem set_warnings_fsm (s : DBState) (u w : Int) :
    (set_warnings s u w).fsm = s.fsm := rfl
@[simp] theorem set_warnings_msgs (s : DBState) (u w : Int) :
    (set_warnings s u w).msgs = s.msgs := rfl
@[simp] theorem set_warnings_now (s : DBState) (u w : Int) :
    (set_warnings s u w).now = s.now := rfl

@[simp] theorem add_warning_pairs (s : DBState) (u : Int) :
    (add_warning s u).active_pairs = s.active_pairs := rfl
@[simp] theorem add_warning_waiting (s : DBState) (u : Int) :
    (add_warning s u).waiting_queue = s.waiting_queue := rfl
@[simp] theorem add_warning_reporting (s : DBState) (u : Int) :
    (add_warning s u).reportingMap = s.reportingMap := rfl
@[simp] theorem add_warning_fsm (s : DBState) (u : Int) :
    (add_warning s u).fsm = s.fsm := rfl
@[simp] theorem add_warning_msgs (s : DBState) (u : Int) :
    (add_warning s u).msgs = s.msgs := rfl
@[simp] theorem add_warning_now (s : DBState) (u : Int) :
    (add_warning s u).now = s.now := rfl

@[simp] theorem add_user_pairs (s : DBState) (u : Int) (lg : String) :
    (add_user s u lg).active_pairs = s.active_pairs := rfl
@[simp] theorem add_user_waiting (s : DBState) (u : Int) (lg : String) :
    (add_user s u lg).waiting_queue = s.waiting_queue := rfl
@[simp] theorem add_user_reporting (s : DBState) (u : Int) (lg : String) :
    (add_user s u lg).reportingMap = s.reportingMap := rfl
@[simp] theorem add_user_fsm (s : DBState) (u : Int) (lg : String) :
    (add_user s u lg).fsm = s.fsm := rfl
@[simp] theorem add_user_msgs (s : DBState) (u : Int) (lg : String) :
    (add_user s u lg).msgs = s.msgs := rfl
@[simp] theorem add_user_now (s : DBState) (u : Int) (lg : String) :
    (add_user s u lg).now = s.now := rfl

@[simp] theorem update_user_activity_pairs (s : DBState) (u : Int) :
    (update_user_activity s u).active_pairs = s.active_pairs := rfl
@[simp] theorem update_user_activity_waiting (s : DBState) (u : Int) :
    (update_user_activity s u).waiting_queue = s.waiting_queue := rfl
@[simp] theorem update_user_activity_reporting (s : DBState) (u : Int) :
    (update_user_activity s u).reportingMap = s.reportingMap := rfl
@[simp] theorem update_user_activity_fsm (s : DBState) (u : Int) :
    (update_user_activity s u).fsm = s.fsm := rfl
@[simp] theorem update_user_activity_msgs (s : DBState) (u : Int) :
    (update_user_activity s u).msgs = s.msgs := rfl
@[simp] theorem update_user_activity_now (s : DBState) (u : Int) :
    (update_user_activity s u).now = s.now := rfl

@[simp] theorem add_to_waiting_users (s : DBState) (u : Int) (lg : String) :
    (add_to_waiting s u lg).users = s.users := rfl
@[simp] theorem add_to_waiting_pairs (s : DBState) (u : Int) (lg : String) :
    (add_to_waiting s u lg).active_pairs = s.active_pairs := rfl
@[simp] theorem add_to_waiting_reporting (s : DBState) (u : Int) (lg : String) :
    (add_to_waiting s u lg).reportingMap = s.reportingMap := rfl
@[simp] theorem add_to_waiting_fsm (s : DBState) (u : Int) (lg : String) :
    (add_to_waiting s u lg).fsm = s.fsm := rfl
@[simp] theorem add_to_waiting_msgs (s : DBState) (u : Int) (lg : String) :
    (add_to_waiting s u lg).msgs = s.msgs := rfl
@[simp] theorem add_to_waiting_now (s : DBState) (u : Int) (lg : String) :
    (add_to_waiting s u lg).now = s.now := rfl
@[simp] theorem add_to_waiting_waiting (s : DBState) (u : Int) (lg : String) :
    (add_to_waiting s u lg).waiting_queue =
      add_to_waiting.go s u lg s.waiting_queue := rfl

@[simp] theorem remove_from_waiting_users (s : DBState) (u : Int) :
    ((remove_from_waiting s u).2).users = s.users := rfl
@[simp] theorem remove_from_waiting_pairs (s : DBState) (u : Int) :
    ((remove_from_waiting s u).2).active_pairs = s.active_pairs := rfl
@[simp] theorem remove_from_waiting_reporting (s : DBState) (u : Int) :
    ((remove_from_waiting s u).2).reportingMap = s.reportingMap := rfl
@[simp] theorem remove_from_waiting_fsm (s : DBState) (u : Int) :
    ((remove_from_waiting s u).2).fsm = s.fsm := rfl
@[simp] theorem remove_from_waiting_msgs (s : DBState) (u : Int) :
    ((remove_from_waiting s u).2).msgs = s.msgs := rfl
@[simp] theorem remove_from_waiting_now (s : DBState) (u : Int) :
    ((remove_from_waiting s u).2).now = s.now := rfl
@[simp] theorem remove_from_waiting_waiting (s : DBState) (u : Int) :
    ((remove_from_waiting s u).2).waiting_queue =
      remove_from_waiting.go u s.waiting_queue := rfl

@[simp] theorem create_pair_users (s : DBState) (u1 u2 : Int) (pid : Nat) :
    (create_pair s u1 u2 pid).users = s.users := rfl
@[simp] theorem create_pair_waiting (s : DBState) (u1 u2 : Int) (pid : Nat) :
    (create_pair s u1 u2 pid).waiting_queue = s.waiting_queue := rfl
@[simp] theorem create_pair_reporting (s : DBState) (u1 u2 : Int) (pid : Nat) :
    (create_pair s u1 u2 pid).reportingMap = s.reportingMap := rfl
@[simp] theorem create_pair_fsm (s : DBState) (u1 u2 : Int) (pid : Nat) :
    (create_pair s u1 u2 pid).fsm = s.fsm := rfl
@[simp] theorem create_pair_msgs (s : DBState) (u1 u2 : Int) (pid : Nat) :
    (create_pair s u1 u2 pid).msgs = s.msgs := rfl
@[simp] theorem create_pair_now (s : DBState) (u1 u2 : Int) (pid : Nat) :
    (create_pair s u1 u2 pid).now = s.now := rfl
@[simp] theorem create_pair_pairs (s : DBState) (u1 u2 : Int) (pid : Nat) :
    (create_pair s u1 u2 pid).active_pairs = s.active_pairs ++
      [{ user1_id := min u1 u2, user2_id := max u1 u2, pair_id := pid,
         created_at := s.now, last_activity := s.now, status := "active" }] := rfl

@[simp] theorem end_pair_users (s : DBState) (pid : Nat) (st : String) :
    (end_pair s pid st).users = s.users := rfl
@[simp] theorem end_pair_waiting (s : DBState) (pid : Nat) (st : String) :
    (end_pair s pid st).waiting_queue = s.waiting_queue := rfl
@[simp] theorem end_pair_reporting (s : DBState) (pid : Nat) (st : String) :
    (end_pair s pid st).reportingMap = s.reportingMap := rfl
@[simp] theorem end_pair_fsm (s : DBState) (pid : Nat) (st : String) :
    (end_pair s pid st).fsm = s.fsm := rfl
@[simp] theorem end_pair_msgs (s : DBState) (pid : Nat) (st : String) :
    (end_pair s pid st).msgs = s.msgs := rfl
@[simp] theorem end_pair_now (s : DBState) (pid : Nat) (st : String) :
    (end_pair s pid st).now = s.now := rfl
@[simp] theorem end_pair_pairs (s : DBState) (pid : Nat) (st : String) :
    (end_pair s pid st).active_pairs = end_pair.go pid st s.active_pairs := rfl

/-! ## Helper lemmas: composite operations of main.py -/

theorem disconnect_users_users (s : DBState) (u1 u2 : Int) :
    (disconnect_users s u1 u2).users = s.users := by
  unfold disconnect_users
  split <;> simp

theorem disconnect_users_waiting (s : DBState) (u1 u2 : Int) :
    (disconnect_users s u1 u2).waiting_queue = s.waiting_queue := by
  unfold disconnect_users
  split <;> simp

theorem disconnect_users_reporting (s : DBState) (u1 u2 : Int) :
    (disconnect_users s u1 u2).reportingMap = s.reportingMap := by
  unfold disconnect_users
  split <;> simp

theorem disconnect_users_now (s : DBState) (u1 u2 : Int) :
    (disconnect_users s u1 u2).now = s.now := by
  unfold disconnect_users
  split <;> simp

theorem disconnect_users_of_none (s : DBState) (u1 u2 : Int)
    (h : get_pair s u1 = none) : disconnect_users s u1 u2 = s := by
  unfold disconnect_users
  rw [h]

theorem disconnect_users_kills_active (s : DBState) (u1 u2 : Int) (pr : PairDoc)
    (hget : get_pair s u1 = some pr)
    (hacts : s.active_pairs.filter (fun p => p.status == "active") = [pr])
    (hpid : ∀ p ∈ s.active_pairs, p.pair_id = pr.pair_id → p = pr) :
    (disconnect_users s u1 u2).active_pairs.filter
      (fun p => p.status == "active") = [] := by
  unfold disconnect_users
  rw [hget]
  simp only [sendMsg_pairs, fsmClear_pairs, end_pair_pairs]
  exact endGo_unique_active pr s.active_pairs hacts hpid

theorem cleanup_user_reporting (cfg : Cfg) (s : DBState) (uid : Int) :
    (cleanup_user cfg s uid).reportingMap = s.reportingMap := by
  unfold cleanup_user
  split
  · simp [disconnect_users_reporting]
  · simp

theorem cleanup_user_now (cfg : Cfg) (s : DBState) (uid : Int) :
    (cleanup_user cfg s uid).now = s.now := by
  unfold cleanup_user
  split
  · simp [disconnect_users_now]
  · simp

theorem ban_user_users_eq {s1 s2 : DBState} (u : Int) (h : s1.users = s2.users) :
    (ban_user s1 u).users = (ban_user s2 u).users := by
  unfold ban_user
  rw [h]

theorem set_warnings_users_eq {s1 s2 : DBState} (u w : Int) (h : s1.users = s2.users) :
    (set_warnings s1 u w).users = (set_warnings s2 u w).users := by
  unfold set_warnings
  rw [h]

theorem cleanup_user_users (cfg : Cfg) (s : DBState) (uid : Int) :
    (cleanup_user cfg s uid).users =
      (set_warnings (ban_user s uid) uid cfg.maxWarnings).users := by
  unfold cleanup_user
  split
  · rename_i pr hpr
    simp only [fsmClear_users]
    apply set_warnings_users_eq
    apply ban_user_users_eq
    rw [remove_from_waiting_users, disconnect_users_users]
  · simp only [fsmClear_users]
    apply set_warnings_users_eq
    apply ban_user_users_eq
    rw [remove_from_waiting_users]

theorem is_banned_cleanup_user (cfg : Cfg) (s : DBState) (uid v : Int) :
    is_banned (cleanup_user cfg s uid) v = if v = uid then true else is_banned s v := by
  have h1 := is_banned_congr (cleanup_user_users cfg s uid) v
  rw [h1, is_banned_set_warnings, is_banned_ban_user]

theorem get_warnings_cleanup_user (cfg : Cfg) (s : DBState) (uid v : Int) :
    get_warnings (cleanup_user cfg s uid) v =
      if v = uid then cfg.maxWarnings else get_warnings s v := by
  have h1 := get_warnings_congr (cleanup_user_users cfg s uid) v
  rw [h1, get_warnings_set_warnings]
  by_cases hv : v = uid
  · simp [hv]
  · simp [hv, get_warnings_ban_user]

theorem cleanup_user_kills_active (cfg : Cfg) (s : DBState) (uid : Int) (pr : PairDoc)
    (hget : get_pair s uid = some pr)
    (hacts : s.active_pairs.filter (fun p => p.status == "active") = [pr])
    (hpid : ∀ p ∈ s.active_pairs, p.pair_id = pr.pair_id → p = pr) :
    (cleanup_user cfg s uid).active_pairs.filter (fun p => p.status == "active") = [] := by
  unfold cleanup_user
  rw [hget]
  simp only [fsmClear_pairs, set_warnings_pairs, ban_user_pairs, remove_from_waiting_pairs]
  exact disconnect_users_kills_active s uid _ pr hget hacts hpid

theorem cleanup_user_pairs_of_none (cfg : Cfg) (s : DBState) (uid : Int)
    (h : get_pair s uid = none) :
    (cleanup_user cfg s uid).active_pairs = s.active_pairs := by
  unfold cleanup_user
  rw [h]
  simp

theorem get_pair_of_no_active (s : DBState) (v : Int)
    (h : s.active_pairs.filter (fun p => p.status == "active") = []) :
    get_pair s v = none := by
  unfold get_pair
  exact find_none_of_no_active v s.active_pairs h

theorem fsmGet_congr {s1 s2 : DBState} (h : s1.fsm = s2.fsm) (v : Int) :
    fsmGet s1 v = fsmGet s2 v := by
  unfold fsmGet
  rw [h]

theorem reportingGet_congr {s1 s2 : DBState} (h : s1.reportingMap = s2.reportingMap)
    (v : Int) : reportingGet s1 v = reportingGet s2 v := by
  unfold reportingGet
  rw [h]

/-! ## C3 — finalizing a report -/

/-- C3.  When a paired, unbanned reporter with a pending report intent
against target `t` sends their next inbound message, the handler clears the
intent unconditionally, increments the target's warning count by one and
reads the new value, bans the target exactly when that value reaches
`MAX_WARNINGS` (also forcing the stored count to `MAX_WARNINGS` through
`cleanup_user`), and ends the current session for both members regardless
of the threshold. -/
theorem finalize_report_spec (cfg : Cfg) (s : DBState) (uid t : Int) (lc : String)
    (isCmd : Bool) (pr : PairDoc)
    (hb : is_banned s uid = false)
    (hfsm : fsmGet s uid = some .inDialogue)
    (hrep : reportingGet s uid = some t)
    (hacts : s.active_pairs.filter (fun p => p.status == "active") = [pr])
    (hpid : ∀ p ∈ s.active_pairs, p.pair_id = pr.pair_id → p = pr)
    (hum : (pr.user1_id == uid || pr.user2_id == uid) = true)
    (htm : (pr.user1_id == t || pr.user2_id == t) = true) :
    reportingGet (applyEvent cfg (.message uid lc isCmd) s) uid = none ∧
    get_pair (applyEvent cfg (.message uid lc isCmd) s) uid = none ∧
    get_pair (applyEvent cfg (.message uid lc isCmd) s) t = none ∧
    (cfg.maxWarnings ≤ get_warnings s t + 1 →
      is_banned (applyEvent cfg (.message uid lc isCmd) s) t = true ∧
      get_warnings (applyEvent cfg (.message uid lc isCmd) s) t = cfg.maxWarnings) ∧
    (get_warnings s t + 1 < cfg.maxWarnings →
      is_banned (applyEvent cfg (.message uid lc isCmd) s) t = is_banned s t ∧
      get_warnings (applyEvent cfg (.message uid lc isCmd) s) t =
        get_warnings s t + 1) := by
  have hget : get_pair s uid = some pr :=
    get_pair_singleton_active uid pr hum s.active_pairs hacts
  have hgett : get_pair s t = some pr :=
    get_pair_singleton_active t pr htm s.active_pairs hacts
  have hmw1 : (middleware s uid lc).1 = true := by
    rw [middleware_fst, hb]
    rfl
  have hmw : middleware s uid lc = (true, (middleware s uid lc).2) := by
    rw [← hmw1]
  have hfsm2 : fsmGet ((middleware s uid lc).2) uid = some .inDialogue := by
    rw [fsmGet_congr (middleware_fsm s uid lc) uid]
    exact hfsm
  have hrep2 : reportingGet ((middleware s uid lc).2) uid = some t := by
    rw [reportingGet_congr (middleware_reporting s uid lc) uid]
    exact hrep
  have happ : applyEvent cfg (.message uid lc isCmd) s =
      sendMsg
        (disconnect_users
          (if cfg.maxWarnings ≤
              get_warnings (add_warning (reportingDel ((middleware s uid lc).2) uid) t) t
           then
             sendMsg
               (cleanup_user cfg
                 (ban_user (add_warning (reportingDel ((middleware s uid lc).2) uid) t) t)
                 t)
               t "banMessage"
           else add_warning (reportingDel ((middleware s uid lc).2) uid) t)
          uid t)
        uid "reportSuccess" := by
    show message_handler cfg s uid lc isCmd = _
    unfold message_handler
    rw [hmw]
    simp only [hfsm2, hrep2]
    rfl
  -- warning count read by the handler
  have hW4 : get_warnings (add_warning (reportingDel ((middleware s uid lc).2) uid) t) t =
      get_warnings s t + 1 := by
    rw [get_warnings_add_warning]
    simp only [if_pos rfl, if_true]
    rw [get_warnings_congr (reportingDel_users ((middleware s uid lc).2) uid) t]
    rw [middleware_get_warnings]
  -- pair facts at the post-increment state
  have hp4 : (add_warning (reportingDel ((middleware s uid lc).2) uid) t).active_pairs =
      s.active_pairs := by
    rw [add_warning_pairs, reportingDel_pairs, middleware_pairs]
  rw [happ, hW4]
  by_cases hcase : cfg.maxWarnings ≤ get_warnings s t + 1
  · rw [if_pos hcase]
    -- the ban-and-cleanup branch
    have hgetban : get_pair
        (ban_user (add_warning (reportingDel ((middleware s uid lc).2) uid) t) t) t =
        some pr := by
      rw [get_pair_congr (by rw [ban_user_pairs, hp4] :
        (ban_user (add_warning (reportingDel ((middleware s uid lc).2) uid) t)
          t).active_pairs = s.active_pairs) t]
      exact hgett
    have hkill : (cleanup_user cfg
        (ban_user (add_warning (reportingDel ((middleware s uid lc).2) uid) t) t)
        t).active_pairs.filter (fun p => p.status == "active") = [] := by
      apply cleanup_user_kills_active cfg _ t pr hgetban
      · rw [ban_user_pairs, hp4]
        exact hacts
      · rw [ban_user_pairs, hp4]
        exact hpid
    have hnone5 : ∀ v : Int, get_pair
        (sendMsg (cleanup_user cfg
          (ban_user (add_warning (reportingDel ((middleware s uid lc).2) uid) t) t) t)
          t "banMessage") v = none := by
      intro v
      apply get_pair_of_no_active
      rw [sendMsg_pairs]
      exact hkill
    have hdisc : disconnect_users
        (sendMsg (cleanup_user cfg
          (ban_user (add_warning (reportingDel ((middleware s uid lc).2) uid) t) t) t)
          t "banMessage") uid t =
        sendMsg (cleanup_user cfg
          (ban_user (add_warning (reportingDel ((middleware s uid lc).2) uid) t) t) t)
          t "banMessage" :=
      disconnect_users_of_none _ uid t (hnone5 uid)
    rw [hdisc]
    refine ⟨?_, ?_, ?_, ?_, ?_⟩
    · rw [reportingGet_congr (by
        rw [sendMsg_reporting, sendMsg_reporting, cleanup_user_reporting,
          ban_user_reporting, add_warning_reporting] :
        (sendMsg (sendMsg (cleanup_user cfg (ban_user (add_warning
          (reportingDel ((middleware s uid lc).2) uid) t) t) t) t "banMessage")
          uid "reportSuccess").reportingMap =
        (reportingDel ((middleware s uid lc).2) uid).reportingMap) uid]
      exact reportingGet_reportingDel_self ((middleware s uid lc).2) uid
    · rw [get_pair_congr (sendMsg_pairs _ uid "reportSuccess") uid]
      exact hnone5 uid
    · rw [get_pair_congr (sendMsg_pairs _ uid "reportSuccess") t]
      exact hnone5 t
    · intro _
      constructor
      · rw [is_banned_congr (by rw [sendMsg_users, sendMsg_users] :
          (sendMsg (sendMsg (cleanup_user cfg (ban_user (add_warning
            (reportingDel ((middleware s uid lc).2) uid) t) t) t) t "banMessage")
            uid "reportSuccess").users =
          (cleanup_user cfg (ban_user (add_warning
            (reportingDel ((middleware s uid lc).2) uid) t) t) t).users) t]
        rw [is_banned_cleanup_user]
        simp
      · rw [get_warnings_congr (by rw [sendMsg_users, sendMsg_users] :
          (sendMsg (sendMsg (cleanup_user cfg (ban_user (add_warning
            (reportingDel ((middleware s uid lc).2) uid) t) t) t) t "banMessage")
            uid "reportSuccess").users =
          (cleanup_user cfg (ban_user (add_warning
            (reportingDel ((middleware s uid lc).2) uid) t) t) t).users) t]
        rw [get_warnings_cleanup_user]
        simp
    · intro hlt
      omega
  · rw [if_neg hcase]
    -- no ban: just disconnect
    have hget4 : get_pair (add_warning (reportingDel ((middleware s uid lc).2) uid) t)
        uid = some pr := by
      rw [get_pair_congr hp4 uid]
      exact hget
    have hkill : (disconnect_users
        (add_warning (reportingDel ((middleware s uid lc).2) uid) t)
        uid t).active_pairs.filter (fun p => p.status == "active") = [] := by
      apply disconnect_users_kills_active _ uid t pr hget4
      · rw [hp4]; exact hacts
      · rw [hp4]; exact hpid
    refine ⟨?_, ?_, ?_, ?_, ?_⟩
    · rw [reportingGet_congr (by
        rw [sendMsg_reporting, disconnect_users_reporting, add_warning_reporting] :
        (sendMsg (disconnect_users (add_warning
          (reportingDel ((middleware s uid lc).2) uid) t) uid t)
          uid "reportSuccess").reportingMap =
        (reportingDel ((middleware s uid lc).2) uid).reportingMap) uid]
      exact reportingGet_reportingDel_self ((middleware s uid lc).2) uid
    · apply get_pair_of_no_active
      rw [sendMsg_pairs]
      exact hkill
    · apply get_pair_of_no_active
      rw [sendMsg_pairs]
      exact hkill
    · intro hge
      omega
    · intro _
      have husers : (sendMsg (disconnect_users (add_warning
          (reportingDel ((middleware s uid lc).2) uid) t) uid t)
          uid "reportSuccess").users =
          (add_warning (reportingDel ((middleware s uid lc).2) uid) t).users := by
        rw [sendMsg_users, disconnect_users_users]
      constructor
      · rw [is_banned_congr husers t, is_banned_add_warning,
          is_banned_congr (reportingDel_users ((middleware s uid lc).2) uid) t,
          middleware_is_banned]
      · rw [get_warnings_congr husers t]
        exact hW4

/-- C3, witness: Scenario 3 of the specification.  With `MAX_WARNINGS = 1`,
user 1 reports user 2 mid-session and sends a follow-up message: the intent
is cleared, user 2's warnings go from 0 to 1, user 2 is banned, and the
session is ended for both. -/
theorem finalize_report_spec_witness :
    (is_banned (runEvents { maxWarnings := 1 }
        [.next 1 "en" 5, .next 2 "en" 7, .report 1 "en"]) 1 = false ∧
     fsmGet (runEvents { maxWarnings := 1 }
        [.next 1 "en" 5, .next 2 "en" 7, .report 1 "en"]) 1 = some .inDialogue ∧
     reportingGet (runEvents { maxWarnings := 1 }
        [.next 1 "en" 5, .next 2 "en" 7, .report 1 "en"]) 1 = some 2 ∧
     get_warnings (runEvents { maxWarnings := 1 }
        [.next 1 "en" 5, .next 2 "en" 7, .report 1 "en"]) 2 = 0) ∧
    (reportingGet (applyEvent { maxWarnings := 1 } (.message 1 "en" false)
        (runEvents { maxWarnings := 1 }
          [.next 1 "en" 5, .next 2 "en" 7, .report 1 "en"])) 1 = none ∧
     get_pair (applyEvent { maxWarnings := 1 } (.message 1 "en" false)
        (runEvents { maxWarnings := 1 }
          [.next 1 "en" 5, .next 2 "en" 7, .report 1 "en"])) 1 = none ∧
     get_pair (applyEvent { maxWarnings := 1 } (.message 1 "en" false)
        (runEvents { maxWarnings := 1 }
          [.next 1 "en" 5, .next 2 "en" 7, .report 1 "en"])) 2 = none ∧
     is_banned (applyEvent { maxWarnings := 1 } (.message 1 "en" false)
        (runEvents { maxWarnings := 1 }
          [.next 1 "en" 5, .next 2 "en" 7, .report 1 "en"])) 2 = true ∧
     get_warnings (applyEvent { maxWarnings := 1 } (.message 1 "en" false)
        (runEvents { maxWarnings := 1 }
          [.next 1 "en" 5, .next 2 "en" 7, .report 1 "en"])) 2 = 1) := by
  have h := finalize_report_spec { maxWarnings := 1 }
    (runEvents { maxWarnings := 1 } [.next 1 "en" 5, .next 2 "en" 7, .report 1 "en"])
    1 2 "en" false
    ({ user1_id := 1, user2_id := 2, pair_id := 7, created_at := 0,
       last_activity := 0, status := "active" })
    (by decide) (by decide) (by decide) (by decide) (by decide) (by decide) (by decide)
  refine ⟨⟨by decide, by decide, by decide, by decide⟩, h.1, h.2.1, h.2.2.1, ?_, ?_⟩
  · exact (h.2.2.2.1 (by decide)).1
  · exact (h.2.2.2.1 (by decide)).2

/-! ## Preservation of the matchmaking invariant -/

theorem matchInv_transfer {s s' : DBState}
    (hW : ∀ e ∈ s'.waiting_queue, e ∈ s.waiting_queue)
    (hNd : (s'.waiting_queue.map WEntry.user_id).Nodup)
    (hB : ∀ e ∈ s'.waiting_queue, is_banned s' e.user_id = is_banned s e.user_id)
    (hP : ∀ e ∈ s'.waiting_queue,
      get_pair s e.user_id = none → get_pair s' e.user_id = none)
    (h : MatchInv s) : MatchInv s' := by
  obtain ⟨h1, h2, h3⟩ := h
  refine ⟨hNd, ?_, ?_⟩
  · intro e he
    rw [hB e he]
    exact h2 e (hW e he)
  · intro e he
    exact hP e he (h3 e (hW e he))

theorem get_pair_none_of_not_dialogue {s : DBState} {uid : Int}
    (h : is_in_dialogue s uid = false) : get_pair s uid = none := by
  unfold is_in_dialogue at h
  cases hg : get_pair s uid with
  | none => rfl
  | some p =>
    rw [hg] at h
    exact absurd h (by simp)

theorem disconnect_users_pair_none (s : DBState) (u1 u2 v : Int)
    (h : get_pair s v = none) : get_pair (disconnect_users s u1 u2) v = none := by
  unfold disconnect_users
  split
  · rename_i pr hpr
    have hp : (sendMsg (sendMsg (fsmClear (fsmClear (end_pair s pr.pair_id "ended") u1)
        u2) u1 "skipDialogue") u2 "partnerSkipDialogue").active_pairs =
        (end_pair s pr.pair_id "ended").active_pairs := by
      simp
    rw [get_pair_congr hp v]
    exact get_pair_end_pair_none s pr.pair_id v h
  · exact h

theorem cleanup_user_pair_none (cfg : Cfg) (s : DBState) (uid v : Int)
    (h : get_pair s v = none) : get_pair (cleanup_user cfg s uid) v = none := by
  unfold cleanup_user
  split
  · rename_i pr hpr
    have hp : (fsmClear (set_warnings (ban_user
        ((remove_from_waiting (disconnect_users s uid
          (if (pr.user1_id == uid) = true then pr.user2_id else pr.user1_id)) uid).2)
        uid) uid cfg.maxWarnings) uid).active_pairs =
        (disconnect_users s uid
          (if (pr.user1_id == uid) = true then pr.user2_id else pr.user1_id)).active_pairs := by
      simp
    rw [get_pair_congr hp v]
    exact disconnect_users_pair_none s uid _ v h
  · have hp : (fsmClear (set_warnings (ban_user ((remove_from_waiting s uid).2) uid)
        uid cfg.maxWarnings) uid).active_pairs = s.active_pairs := by
      simp
    rw [get_pair_congr hp v]
    exact h

theorem cleanup_user_waiting (cfg : Cfg) (s : DBState) (uid : Int) :
    (cleanup_user cfg s uid).waiting_queue =
      remove_from_waiting.go uid s.waiting_queue := by
  unfold cleanup_user
  split
  · rename_i pr hpr
    simp [disconnect_users_waiting]
  · simp

theorem matchInv_cleanup_general (cfg : Cfg) (uid : Int) {s : DBState}
    (hNd : (s.waiting_queue.map WEntry.user_id).Nodup)
    (hB : ∀ e ∈ s.waiting_queue, e.user_id ≠ uid → is_banned s e.user_id = false)
    (hP : ∀ e ∈ s.waiting_queue, get_pair s e.user_id = none) :
    MatchInv (cleanup_user cfg s uid) := by
  have hw' := cleanup_user_waiting cfg s uid
  refine ⟨?_, ?_, ?_⟩
  · rw [hw']
    exact removeGo_nodup uid hNd
  · intro e he
    rw [hw'] at he
    have hne := mem_removeGo_ne uid s.waiting_queue hNd e he
    rw [is_banned_cleanup_user, if_neg hne]
    exact hB e (mem_removeGo uid he) hne
  · intro e he
    rw [hw'] at he
    exact cleanup_user_pair_none cfg s uid e.user_id (hP e (mem_removeGo uid he))

theorem matchInv_cleanup (cfg : Cfg) (uid : Int) {s : DBState} (h : MatchInv s) :
    MatchInv (cleanup_user cfg s uid) :=
  matchInv_cleanup_general cfg uid h.1 (fun e he _ => h.2.1 e he) h.2.2

theorem matchInv_disconnect (u1 u2 : Int) {s : DBState} (h : MatchInv s) :
    MatchInv (disconnect_users s u1 u2) := by
  refine matchInv_transfer ?_ ?_ ?_ ?_ h
  · intro e he
    rw [disconnect_users_waiting] at he
    exact he
  · rw [disconnect_users_waiting]
    exact h.1
  · intro e _
    exact is_banned_congr (disconnect_users_users s u1 u2) e.user_id
  · intro e _ hp
    exact disconnect_users_pair_none s u1 u2 e.user_id hp

theorem matchInv_mw (uid : Int) (lc : String) {s : DBState} (h : MatchInv s) :
    MatchInv ((middleware s uid lc).2) := by
  refine matchInv_transfer ?_ ?_ ?_ ?_ h
  · intro e he
    rw [middleware_waiting] at he
    exact he
  · rw [middleware_waiting]
    exact h.1
  · intro e _
    exact middleware_is_banned s uid e.user_id lc
  · intro e _ hp
    rw [get_pair_congr (middleware_pairs s uid lc) e.user_id]
    exact hp

theorem matchInv_find_partner (uid : Int) (lang : String) (pid : Nat) {s : DBState}
    (h : MatchInv s) (hban : is_banned s uid = false)
    (hdia : get_pair s uid = none) :
    MatchInv (find_partner s uid lang pid) := by
  unfold find_partner get_waiting_users
  dsimp only [remove_from_waiting_waiting]
  cases hch : partnerChoice (remove_from_waiting.go uid s.waiting_queue) uid lang with
  | none =>
    -- enqueue branch
    have hwfin : (fsmSet (sendMsg (add_to_waiting ((remove_from_waiting s uid).2)
        uid lang) uid "partnerFinding") uid FsmSt.searching).waiting_queue =
        add_to_waiting.go ((remove_from_waiting s uid).2) uid lang
          (remove_from_waiting.go uid s.waiting_queue) := by
      simp
    refine ⟨?_, ?_, ?_⟩
    · rw [hwfin]
      exact addGo_nodup _ uid lang _ (removeGo_nodup uid h.1)
    · intro e he
      rw [hwfin] at he
      have hbv : is_banned (fsmSet (sendMsg (add_to_waiting ((remove_from_waiting s uid).2)
          uid lang) uid "partnerFinding") uid FsmSt.searching) e.user_id =
          is_banned s e.user_id := by
        apply is_banned_congr
        simp
      rw [hbv]
      rcases mem_addGo ((remove_from_waiting s uid).2) uid lang _ e he with hnew | hold
      · rw [hnew]
        exact hban
      · exact h.2.1 e (mem_removeGo uid hold)
    · intro e he
      rw [hwfin] at he
      have hpv : get_pair (fsmSet (sendMsg (add_to_waiting ((remove_from_waiting s uid).2)
          uid lang) uid "partnerFinding") uid FsmSt.searching) e.user_id =
          get_pair s e.user_id := by
        apply get_pair_congr
        simp
      rw [hpv]
      rcases mem_addGo ((remove_from_waiting s uid).2) uid lang _ e he with hnew | hold
      · rw [hnew]
        exact hdia
      · exact h.2.2 e (mem_removeGo uid hold)
  | some c =>
    -- match branch
    obtain ⟨hcmem, hcne, _⟩ := partnerChoice_spec uid lang _ c hch
    have hwfin : (connect_users
        ((remove_from_waiting ((remove_from_waiting ((remove_from_waiting s uid).2)
          uid).2) c.user_id).2) uid c.user_id pid).waiting_queue =
        remove_from_waiting.go c.user_id (remove_from_waiting.go uid
          (remove_from_waiting.go uid s.waiting_queue)) := by
      unfold connect_users
      simp
    have hnd1 : ((remove_from_waiting.go uid s.waiting_queue).map WEntry.user_id).Nodup :=
      removeGo_nodup uid h.1
    have hnd2 : ((remove_from_waiting.go uid (remove_from_waiting.go uid
        s.waiting_queue)).map WEntry.user_id).Nodup := removeGo_nodup uid hnd1
    refine ⟨?_, ?_, ?_⟩
    · rw [hwfin]
      exact removeGo_nodup c.user_id hnd2
    · intro e he
      rw [hwfin] at he
      have hbv : is_banned (connect_users
          ((remove_from_waiting ((remove_from_waiting ((remove_from_waiting s uid).2)
            uid).2) c.user_id).2) uid c.user_id pid) e.user_id = is_banned s e.user_id := by
        apply is_banned_congr
        unfold connect_users
        simp
      rw [hbv]
      exact h.2.1 e (mem_removeGo uid (mem_removeGo uid (mem_removeGo c.user_id he)))
    · intro e he
      rw [hwfin] at he
      have hene_c : e.user_id ≠ c.user_id := mem_removeGo_ne c.user_id _ hnd2 e he
      have he2 := mem_removeGo c.user_id he
      have hene_u : e.user_id ≠ uid := mem_removeGo_ne uid _ hnd1 e he2
      have hemem : e ∈ s.waiting_queue := mem_removeGo uid (mem_removeGo uid he2)
      have hpv : get_pair (connect_users
          ((remove_from_waiting ((remove_from_waiting ((remove_from_waiting s uid).2)
            uid).2) c.user_id).2) uid c.user_id pid) e.user_id =
          get_pair (create_pair ((remove_from_waiting ((remove_from_waiting
            ((remove_from_waiting s uid).2) uid).2) c.user_id).2) uid c.user_id pid)
            e.user_id := by
        apply get_pair_congr
        unfold connect_users
        simp
      rw [hpv, get_pair_create_pair_other _ uid c.user_id e.user_id pid hene_u hene_c]
      have hpp : get_pair ((remove_from_waiting ((remove_from_waiting
          ((remove_from_waiting s uid).2) uid).2) c.user_id).2) e.user_id =
          get_pair s e.user_id := by
        apply get_pair_congr
        simp
      rw [hpp]
      exact h.2.2 e hemem

theorem matchInv_removeWaiting (uid : Int) {s : DBState} (h : MatchInv s) :
    MatchInv ((remove_from_waiting s uid).2) := by
  refine matchInv_transfer ?_ ?_ ?_ ?_ h
  · intro e he
    rw [remove_from_waiting_waiting] at he
    exact mem_removeGo uid he
  · rw [remove_from_waiting_waiting]
    exact removeGo_nodup uid h.1
  · intro e _
    exact is_banned_congr (remove_from_waiting_users s uid) e.user_id
  · intro e _ hp
    rw [get_pair_congr (remove_from_waiting_pairs s uid) e.user_id]
    exact hp

theorem matchInv_add_warning (t : Int) {s : DBState} (h : MatchInv s) :
    MatchInv (add_warning s t) := by
  refine matchInv_transfer ?_ ?_ ?_ ?_ h
  · intro e he
    rw [add_warning_waiting] at he
    exact he
  · rw [add_warning_waiting]
    exact h.1
  · intro e _
    exact is_banned_add_warning s t e.user_id
  · intro e _ hp
    rw [get_pair_congr (add_warning_pairs s t) e.user_id]
    exact hp

theorem matchInv_sweep {s : DBState} (h : MatchInv s) : MatchInv (ttl_sweep s) := by
  refine matchInv_transfer ?_ ?_ ?_ ?_ h
  · intro e he
    exact (List.mem_filter.mp he).1
  · exact h.1.sublist ((List.filter_sublist s.waiting_queue).map WEntry.user_id)
  · intro e _
    rfl
  · intro e _ hp
    exact hp

theorem matchInv_next (cfg : Cfg) (s : DBState) (uid : Int) (lc : String) (pid : Nat)
    (h : MatchInv s) : MatchInv (next_handler cfg s uid lc pid) := by
  unfold next_handler
  cases hmb : is_banned s uid with
  | true =>
    have hm : middleware s uid lc = (false, sendMsg s uid "banMessage") := by
      unfold middleware
      rw [if_pos hmb]
    rw [hm]
    exact h
  | false =>
    have hmw1 : (middleware s uid lc).1 = true := by
      rw [middleware_fst, hmb]
      rfl
    have hm : middleware s uid lc = (true, (middleware s uid lc).2) := by
      rw [← hmw1]
    rw [hm]
    have hInv2 : MatchInv ((middleware s uid lc).2) := matchInv_mw uid lc h
    dsimp only
    cases hgu : get_user ((middleware s uid lc).2) uid with
    | none => exact hInv2
    | some userData =>
      have hmb2 : is_banned ((middleware s uid lc).2) uid = false := by
        rw [middleware_is_banned]
        exact hmb
      rw [hmb2]
      simp only [Bool.false_eq_true, if_false]
      by_cases hdia : is_in_dialogue ((middleware s uid lc).2) uid = true
      · rw [if_pos hdia]
        exact hInv2
      · rw [if_neg hdia]
        by_cases hwarn : cfg.maxWarnings ≤ get_warnings ((middleware s uid lc).2) uid
        · rw [if_pos hwarn]
          have hclean : MatchInv (cleanup_user cfg
              (ban_user ((middleware s uid lc).2) uid) uid) := by
            apply matchInv_cleanup_general cfg uid
            · rw [ban_user_waiting]
              exact hInv2.1
            · intro e he hne
              rw [ban_user_waiting] at he
              rw [is_banned_ban_user, if_neg hne]
              exact hInv2.2.1 e he
            · intro e he
              rw [ban_user_waiting] at he
              rw [get_pair_congr (ban_user_pairs _ uid) e.user_id]
              exact hInv2.2.2 e he
          exact hclean
        · rw [if_neg hwarn]
          apply matchInv_find_partner uid _ pid hInv2 hmb2
          apply get_pair_none_of_not_dialogue
          simpa using hdia

theorem matchInv_stop (s : DBState) (uid : Int) (lc : String)
    (h : MatchInv s) : MatchInv (stop_handler s uid lc) := by
  unfold stop_handler
  cases hmb : is_banned s uid with
  | true =>
    have hm : middleware s uid lc = (false, sendMsg s uid "banMessage") := by
      unfold middleware
      rw [if_pos hmb]
    rw [hm]
    exact h
  | false =>
    have hmw1 : (middleware s uid lc).1 = true := by
      rw [middleware_fst, hmb]
      rfl
    have hm : middleware s uid lc = (true, (middleware s uid lc).2) := by
      rw [← hmw1]
    rw [hm]
    have hInv2 : MatchInv ((middleware s uid lc).2) := matchInv_mw uid lc h
    dsimp only
    have hmb2 : is_banned ((middleware s uid lc).2) uid = false := by
      rw [middleware_is_banned]
      exact hmb
    rw [hmb2]
    simp only [Bool.false_eq_true, if_false]
    cases hp : get_partner_id ((middleware s uid lc).2) uid with
    | some p =>
      cases hf : fsmGet ((middleware s uid lc).2) uid with
      | none => exact hInv2
      | some st =>
        cases st with
        | inDialogue => exact matchInv_disconnect uid p hInv2
        | searching => exact matchInv_removeWaiting uid hInv2
    | none =>
      cases hf : fsmGet ((middleware s uid lc).2) uid with
      | none => exact hInv2
      | some st =>
        cases st with
        | inDialogue => exact hInv2
        | searching => exact matchInv_removeWaiting uid hInv2

theorem matchInv_report (s : DBState) (uid : Int) (lc : String)
    (h : MatchInv s) : MatchInv (report_handler s uid lc) := by
  unfold report_handler
  cases hmb : is_banned s uid with
  | true =>
    have hm : middleware s uid lc = (false, sendMsg s uid "banMessage") := by
      unfold middleware
      rw [if_pos hmb]
    rw [hm]
    exact h
  | false =>
    have hmw1 : (middleware s uid lc).1 = true := by
      rw [middleware_fst, hmb]
      rfl
    have hm : middleware s uid lc = (true, (middleware s uid lc).2) := by
      rw [← hmw1]
    rw [hm]
    have hInv2 : MatchInv ((middleware s uid lc).2) := matchInv_mw uid lc h
    dsimp only
    split
    · exact hInv2
    · split
      · exact hInv2
      · exact hInv2

theorem matchInv_message (cfg : Cfg) (s : DBState) (uid : Int) (lc : String)
    (isCmd : Bool) (h : MatchInv s) : MatchInv (message_handler cfg s uid lc isCmd) := by
  unfold message_handler
  cases hmb : is_banned s uid with
  | true =>
    have hm : middleware s uid lc = (false, sendMsg s uid "banMessage") := by
      unfold middleware
      rw [if_pos hmb]
    rw [hm]
    exact h
  | false =>
    have hmw1 : (middleware s uid lc).1 = true := by
      rw [middleware_fst, hmb]
      rfl
    have hm : middleware s uid lc = (true, (middleware s uid lc).2) := by
      rw [← hmw1]
    rw [hm]
    have hInv2 : MatchInv ((middleware s uid lc).2) := matchInv_mw uid lc h
    dsimp only
    split
    · -- in-dialogue branch
      cases hr : reportingGet ((middleware s uid lc).2) uid with
      | some t =>
        dsimp only
        have hInv4 : MatchInv (add_warning (reportingDel ((middleware s uid lc).2) uid) t) :=
          matchInv_add_warning t hInv2
        by_cases hwarn : cfg.maxWarnings ≤
            get_warnings (add_warning (reportingDel ((middleware s uid lc).2) uid) t) t
        · rw [if_pos hwarn]
          have hclean : MatchInv (cleanup_user cfg
              (ban_user (add_warning (reportingDel ((middleware s uid lc).2) uid) t) t)
              t) := by
            apply matchInv_cleanup_general cfg t
            · rw [ban_user_waiting]
              exact hInv4.1
            · intro e he hne
              rw [ban_user_waiting] at he
              rw [is_banned_ban_user, if_neg hne]
              exact hInv4.2.1 e he
            · intro e he
              rw [ban_user_waiting] at he
              rw [get_pair_congr (ban_user_pairs _ t) e.user_id]
              exact hInv4.2.2 e he
          exact matchInv_disconnect uid t hclean
        · rw [if_neg hwarn]
          exact matchInv_disconnect uid t hInv4
      | none =>
        dsimp only
        split
        · exact hInv2
        · split
          · exact hInv2
          · exact hInv2
    · -- not in dialogue
      split
      · exact hInv2
      · exact hInv2

theorem matchInv_timer_check (cfg : Cfg) (s : DBState) (uid : Int)
    (h : MatchInv s) : MatchInv (timer_check cfg s uid) := by
  unfold timer_check
  cases hw : is_waiting s uid with
  | false => simpa [hw] using h
  | true =>
    cases hb : is_banned s uid with
    | true => simpa [hw, hb] using matchInv_cleanup cfg uid h
    | false => simpa [hw, hb] using h

theorem matchInv_timer_fire (cfg : Cfg) (s : DBState) (uid : Int)
    (h : MatchInv s) : MatchInv (timer_fire cfg s uid) := by
  unfold timer_fire
  cases hw : is_waiting s uid with
  | false => simpa [hw] using h
  | true =>
    cases hb : is_banned s uid with
    | true => simpa [hw, hb] using matchInv_cleanup cfg uid h
    | false => simpa [hw, hb] using matchInv_removeWaiting uid h

theorem matchInv_applyEvent (cfg : Cfg) (ev : Event) (s : DBState)
    (h : MatchInv s) : MatchInv (applyEvent cfg ev s) := by
  cases ev with
  | next uid lc pid => exact matchInv_next cfg s uid lc pid h
  | stop uid lc => exact matchInv_stop s uid lc h
  | report uid lc => exact matchInv_report s uid lc h
  | message uid lc isCmd => exact matchInv_message cfg s uid lc isCmd h
  | timerCheck uid => exact matchInv_timer_check cfg s uid h
  | timerFire uid => exact matchInv_timer_fire cfg s uid h
  | tick => exact h
  | ttlSweep => exact matchInv_sweep h

theorem matchInv_runEvents (cfg : Cfg) (evs : List Event) :
    MatchInv (runEvents cfg evs) := by
  have hinit : MatchInv initState := by
    refine ⟨?_, ?_, ?_⟩ <;> simp [initState, MatchInv]
  suffices hgen : ∀ (l : List Event) (st : DBState), MatchInv st →
      MatchInv (l.foldl (fun s ev => applyEvent cfg ev s) st) from
    hgen evs initState hinit
  intro l
  induction l with
  | nil => intro st hst; exact hst
  | cons e es ih => intro st hst; exact ih _ (matchInv_applyEvent cfg e st hst)

theorem matchInv_reachable (cfg : Cfg) (s : DBState) (h : ReachableSeq cfg s) :
    MatchInv s := by
  obtain ⟨evs, rfl⟩ := h
  exact matchInv_runEvents cfg evs

theorem waiting_facts {s : DBState} (hinv : MatchInv s) (uid : Int)
    (hw : is_waiting s uid = true) :
    is_banned s uid = false ∧ get_pair s uid = none := by
  unfold is_waiting at hw
  obtain ⟨e, he⟩ := Option.isSome_iff_exists.mp hw
  have hmem := List.mem_of_find?_eq_some he
  have hpred := List.find?_some he
  have hpred2 : e.user_id = uid := beq_iff_eq.mp hpred
  have h1 := hinv.2.1 e hmem
  have h2 := hinv.2.2 e hmem
  rw [hpred2] at h1 h2
  exact ⟨h1, h2⟩

/-! ## C4 — the waiting/paired exclusion under serialized handlers -/

/-- C4, amended.  Under serialized execution — each inbound event (handler
or watcher pass) runs to completion before the next — the exclusion is an
inductive invariant: in every reachable state no user is simultaneously in
the waiting queue and a member of an active pair.  (Under the interleaved
execution the code actually permits, the invariant fails; see the
counterexample.) -/
theorem waiting_not_paired_invariant (cfg : Cfg) (s : DBState)
    (h : ReachableSeq cfg s) (uid : Int) :
    ¬(is_waiting s uid = true ∧ is_in_dialogue s uid = true) := by
  rintro ⟨hw, hd⟩
  have hinv := matchInv_reachable cfg s h
  have hnone := (waiting_facts hinv uid hw).2
  unfold is_in_dialogue at hd
  rw [hnone] at hd
  exact absurd hd (by simp)

/-- C4, amended, witness: the invariant instantiated at the reachable state
where user 1 is searching. -/
theorem waiting_not_paired_invariant_witness :
    ReachableSeq {} (runEvents {} [.next 1 "en" 5]) ∧
    ¬(is_waiting (runEvents {} [.next 1 "en" 5]) 1 = true ∧
      is_in_dialogue (runEvents {} [.next 1 "en" 5]) 1 = true) :=
  ⟨⟨[.next 1 "en" 5], rfl⟩,
   waiting_not_paired_invariant {} (runEvents {} [.next 1 "en" 5])
     ⟨[.next 1 "en" 5], rfl⟩ 1⟩

/-! ## C7 — the search-timeout firing -/

/-- C7.  In any reachable state, when the watcher's final firing
(`timer_fire`) runs for a user who is no longer waiting — in particular for
a user who has meanwhile been matched, or banned (every ban is accompanied
by `cleanup_user`, which dequeues) — it re-validates membership and changes
nothing.  When the user is still waiting, the waiting entry is removed,
the `searchTimeout` notice is sent, the FSM state is cleared back to idle,
and neither the user documents nor the pairs are touched. -/
theorem search_timeout_behavior (cfg : Cfg) (s : DBState) (uid : Int)
    (h : ReachableSeq cfg s) :
    (is_waiting s uid = false → applyEvent cfg (.timerFire uid) s = s) ∧
    (is_in_dialogue s uid = true → applyEvent cfg (.timerFire uid) s = s) ∧
    (is_banned s uid = true → applyEvent cfg (.timerFire uid) s = s) ∧
    (is_waiting s uid = true →
      is_waiting (applyEvent cfg (.timerFire uid) s) uid = false ∧
      (applyEvent cfg (.timerFire uid) s).msgs = s.msgs ++ [(uid, "searchTimeout")] ∧
      fsmGet (applyEvent cfg (.timerFire uid) s) uid = none ∧
      (applyEvent cfg (.timerFire uid) s).users = s.users ∧
      (applyEvent cfg (.timerFire uid) s).active_pairs = s.active_pairs) := by
  have hinv := matchInv_reachable cfg s h
  have hnotwait : is_waiting s uid = false → applyEvent cfg (.timerFire uid) s = s := by
    intro h1
    show timer_fire cfg s uid = s
    unfold timer_fire
    rw [h1]
    rfl
  refine ⟨hnotwait, ?_, ?_, ?_⟩
  · intro hd
    apply hnotwait
    cases hw : is_waiting s uid with
    | false => rfl
    | true =>
      exfalso
      have hnone := (waiting_facts hinv uid hw).2
      unfold is_in_dialogue at hd
      rw [hnone] at hd
      exact absurd hd (by simp)
  · intro hban
    apply hnotwait
    cases hw : is_waiting s uid with
    | false => rfl
    | true =>
      exfalso
      have hbf := (waiting_facts hinv uid hw).1
      rw [hbf] at hban
      exact absurd hban (by simp)
  · intro hw
    have hbf := (waiting_facts hinv uid hw).1
    have happ : applyEvent cfg (.timerFire uid) s =
        fsmClear (sendMsg ((remove_from_waiting s uid).2) uid "searchTimeout") uid := by
      show timer_fire cfg s uid = _
      unfold timer_fire
      rw [hw, hbf]
      rfl
    rw [happ]
    refine ⟨?_, by simp, fsmGet_fsmClear_self _ uid, by simp, by simp⟩
    show ((fsmClear (sendMsg ((remove_from_waiting s uid).2) uid "searchTimeout")
      uid).waiting_queue.find? (fun e => e.user_id == uid)).isSome = false
    rw [show (fsmClear (sendMsg ((remove_from_waiting s uid).2) uid "searchTimeout")
      uid).waiting_queue = remove_from_waiting.go uid s.waiting_queue by simp]
    rw [is_waiting_removeGo_self uid s.waiting_queue hinv.1]
    rfl

/-- C7, witness: the firing instantiated at the reachable state where
user 1 is still searching (entry removed, notice sent, state cleared), and
its no-op conclusion at a state where user 1 was meanwhile matched. -/
theorem search_timeout_behavior_witness :
    ReachableSeq {} (runEvents {} [.next 1 "en" 5]) ∧
    is_waiting (runEvents {} [.next 1 "en" 5]) 1 = true ∧
    (is_waiting (applyEvent {} (.timerFire 1) (runEvents {} [.next 1 "en" 5])) 1 = false ∧
     (applyEvent {} (.timerFire 1) (runEvents {} [.next 1 "en" 5])).msgs =
       (runEvents {} [.next 1 "en" 5]).msgs ++ [(1, "searchTimeout")] ∧
     fsmGet (applyEvent {} (.timerFire 1) (runEvents {} [.next 1 "en" 5])) 1 = none ∧
     (applyEvent {} (.timerFire 1) (runEvents {} [.next 1 "en" 5])).users =
       (runEvents {} [.next 1 "en" 5]).users ∧
     (applyEvent {} (.timerFire 1) (runEvents {} [.next 1 "en" 5])).active_pairs =
       (runEvents {} [.next 1 "en" 5]).active_pairs) ∧
    is_in_dialogue (runEvents {} [.next 1 "en" 5, .next 2 "en" 7]) 1 = true ∧
    applyEvent {} (.timerFire 1) (runEvents {} [.next 1 "en" 5, .next 2 "en" 7]) =
      runEvents {} [.next 1 "en" 5, .next 2 "en" 7] :=
  ⟨⟨[.next 1 "en" 5], rfl⟩, by decide,
   (search_timeout_behavior {} (runEvents {} [.next 1 "en" 5]) 1
     ⟨[.next 1 "en" 5], rfl⟩).2.2.2 (by decide),
   by decide,
   (search_timeout_behavior {} (runEvents {} [.next 1 "en" 5, .next 2 "en" 7]) 1
     ⟨[.next 1 "en" 5, .next 2 "en" 7], rfl⟩).2.1 (by decide)⟩

/-! ## C1 — the matching step is not atomic -/

/-- C1.  The matching step of `/next` is a snapshot read
(`get_waiting_users`) followed by separate `remove_from_waiting` deletes
whose return value is ignored — not a single compare-and-remove.  In the
interleaved machine, whose steps are exactly the `await`ed store operations
of `find_partner`, the schedule below is reachable: users 1 and 2 invoke
`/next` concurrently while user 3 (same language) waits, both take their
snapshot before either delete, and both callers match user 3 — two active
sessions containing user 3 are created. -/
theorem find_partner_double_match :
    IReach {} (iExec {}
      [.seq (.next 3 "en" 30), .spawn 1 "en", .spawn 2 "en",
       .tstep 1 0, .tstep 1 0, .tstep 0 0, .tstep 0 0,
       .tstep 1 100, .tstep 1 100, .tstep 1 100,
       .tstep 0 200, .tstep 0 200, .tstep 0 200] iInit) ∧
    ((iExec {}
      [.seq (.next 3 "en" 30), .spawn 1 "en", .spawn 2 "en",
       .tstep 1 0, .tstep 1 0, .tstep 0 0, .tstep 0 0,
       .tstep 1 100, .tstep 1 100, .tstep 1 100,
       .tstep 0 200, .tstep 0 200, .tstep 0 200] iInit).store.active_pairs.map
        (fun p => (p.user1_id, p.user2_id, p.status))) =
      [(1, 3, "active"), (2, 3, "active")] :=
  ⟨iReach_of_ok {} _ (by decide), by decide⟩

/-! ## C4 — counterexample under the interleaved execution -/

/-- C4, counterexample.  Under the interleaving the asyncio code permits,
the waiting/active-session exclusion fails: user 2's `find_partner` removes
user 1's waiting entry and is then suspended before `create_pair`; user 1
meanwhile runs `/stop` (reverting to idle) and a fresh `/next` (re-entering
the queue, as the pair does not exist yet); when user 2's coroutine resumes
and creates the pair, user 1 is simultaneously in the waiting queue and a
member of an active session. -/
theorem waiting_and_paired_interleaving :
    IReach {} (iExec {}
      [.seq (.next 1 "en" 10), .spawn 2 "en",
       .tstep 0 0, .tstep 0 0, .tstep 0 0, .tstep 0 0,
       .seq (.stop 1 "en"), .seq (.next 1 "en" 11),
       .tstep 0 99] iInit) ∧
    is_waiting (iExec {}
      [.seq (.next 1 "en" 10), .spawn 2 "en",
       .tstep 0 0, .tstep 0 0, .tstep 0 0, .tstep 0 0,
       .seq (.stop 1 "en"), .seq (.next 1 "en" 11),
       .tstep 0 99] iInit).store 1 = true ∧
    is_in_dialogue (iExec {}
      [.seq (.next 1 "en" 10), .spawn 2 "en",
       .tstep 0 0, .tstep 0 0, .tstep 0 0, .tstep 0 0,
       .seq (.stop 1 "en"), .seq (.next 1 "en" 11),
       .tstep 0 99] iInit).store 1 = true :=
  ⟨iReach_of_ok {} _ (by decide), by decide, by decide⟩

/-- C2, amended.  `create_pair` never reports a conflict: for every store
state it unconditionally inserts a session with canonically ordered members
(smaller id first), status `active` and timestamps `now`, leaving users and
the waiting queue untouched — both members are in a dialogue afterwards
regardless of any session they already had, so at-most-one-active-session
is not enforced by creation. -/
theorem create_pair_unconditional_insert (s : DBState) (u1 u2 : Int) (pid : Nat) :
    is_in_dialogue (create_pair s u1 u2 pid) u1 = true ∧
    is_in_dialogue (create_pair s u1 u2 pid) u2 = true ∧
    (create_pair s u1 u2 pid).users = s.users ∧
    (create_pair s u1 u2 pid).waiting_queue = s.waiting_queue ∧
    ({ user1_id := min u1 u2, user2_id := max u1 u2, pair_id := pid,
       created_at := s.now, last_activity := s.now, status := "active" } : PairDoc) ∈
      (create_pair s u1 u2 pid).active_pairs := by
  refine ⟨is_in_dialogue_create_pair_mem s u1 u2 pid u1 (Or.inl rfl),
          is_in_dialogue_create_pair_mem s u1 u2 pid u2 (Or.inr rfl), rfl, rfl, ?_⟩
  rw [create_pair_pairs]
  exact List.mem_append_right s.active_pairs (List.mem_singleton.mpr rfl)

/-- C5, amended.  For a user who is already a member of an active session
(and not banned), `/next` leaves the waiting queue, the session registry,
the FSM contexts and the report intents unchanged and sends only the
`inDialogueWarning` current-state notice.  (For a user in the `Searching`
state there is no such guard: the handler re-runs matching, removing and
re-enqueueing the waiting entry — see the counterexample.) -/
theorem next_while_paired_noop (cfg : Cfg) (s : DBState) (uid : Int) (lc : String)
    (pid : Nat) (hb : is_banned s uid = false) (hd : is_in_dialogue s uid = true) :
    (applyEvent cfg (.next uid lc pid) s).waiting_queue = s.waiting_queue ∧
    (applyEvent cfg (.next uid lc pid) s).active_pairs = s.active_pairs ∧
    (applyEvent cfg (.next uid lc pid) s).fsm = s.fsm ∧
    (applyEvent cfg (.next uid lc pid) s).reportingMap = s.reportingMap ∧
    (applyEvent cfg (.next uid lc pid) s).msgs = s.msgs ++ [(uid, "inDialogueWarning")] := by
  have hmw1 : (middleware s uid lc).1 = true := by
    rw [middleware_fst, hb]
    rfl
  have hm : middleware s uid lc = (true, (middleware s uid lc).2) := by
    rw [← hmw1]
  have hgu : (get_user ((middleware s uid lc).2) uid).isSome = true :=
    middleware_get_user_isSome s uid lc hb
  obtain ⟨d, hd2⟩ := Option.isSome_iff_exists.mp hgu
  have hmb2 : is_banned ((middleware s uid lc).2) uid = false := by
    rw [middleware_is_banned]
    exact hb
  have hdia2 : is_in_dialogue ((middleware s uid lc).2) uid = true := by
    unfold is_in_dialogue
    rw [get_pair_congr (middleware_pairs s uid lc) uid]
    exact hd
  have happ : applyEvent cfg (.next uid lc pid) s =
      sendMsg ((middleware s uid lc).2) uid "inDialogueWarning" := by
    show next_handler cfg s uid lc pid = _
    unfold next_handler
    rw [hm]
    dsimp only
    rw [hd2]
    rw [hmb2]
    simp only [Bool.false_eq_true, if_false]
    rw [if_pos hdia2]
  rw [happ]
  refine ⟨?_, ?_, ?_, ?_, ?_⟩
  · rw [sendMsg_waiting, middleware_waiting]
  · rw [sendMsg_pairs, middleware_pairs]
  · rw [sendMsg_fsm, middleware_fsm]
  · rw [sendMsg_reporting, middleware_reporting]
  · rw [sendMsg_msgs, middleware_msgs s uid lc hb]

/-- C5, amended, witness: instantiated at the reachable state where users 1
and 2 are paired. -/
theorem next_while_paired_noop_witness :
    (is_banned (runEvents {} [.next 1 "en" 5, .next 2 "en" 7]) 1 = false ∧
     is_in_dialogue (runEvents {} [.next 1 "en" 5, .next 2 "en" 7]) 1 = true) ∧
    ((applyEvent {} (.next 1 "en" 8) (runEvents {} [.next 1 "en" 5, .next 2 "en" 7])).waiting_queue =
       (runEvents {} [.next 1 "en" 5, .next 2 "en" 7]).waiting_queue ∧
     (applyEvent {} (.next 1 "en" 8) (runEvents {} [.next 1 "en" 5, .next 2 "en" 7])).active_pairs =
       (runEvents {} [.next 1 "en" 5, .next 2 "en" 7]).active_pairs ∧
     (applyEvent {} (.next 1 "en" 8) (runEvents {} [.next 1 "en" 5, .next 2 "en" 7])).fsm =
       (runEvents {} [.next 1 "en" 5, .next 2 "en" 7]).fsm ∧
     (applyEvent {} (.next 1 "en" 8) (runEvents {} [.next 1 "en" 5, .next 2 "en" 7])).reportingMap =
       (runEvents {} [.next 1 "en" 5, .next 2 "en" 7]).reportingMap ∧
     (applyEvent {} (.next 1 "en" 8) (runEvents {} [.next 1 "en" 5, .next 2 "en" 7])).msgs =
       (runEvents {} [.next 1 "en" 5, .next 2 "en" 7]).msgs ++ [(1, "inDialogueWarning")]) :=
  ⟨⟨by decide, by decide⟩,
   next_while_paired_noop {} (runEvents {} [.next 1 "en" 5, .next 2 "en" 7]) 1 "en" 8
     (by decide) (by decide)⟩

/-- C6, amended.  The selection loop returns the first other waiting entry
whose language equals the caller's exactly; when it returns none, every
other entry in the snapshot has a different language — other-language
entries are never matched (no fallback). -/
theorem partner_choice_same_language_only (snap : List WEntry) (uid : Int)
    (lang : String) :
    (∀ c : WEntry, partnerChoice snap uid lang = some c →
      c ∈ snap ∧ c.user_id ≠ uid ∧ c.lang = lang) ∧
    (partnerChoice snap uid lang = none →
      ∀ c ∈ snap, c.user_id = uid ∨ c.lang ≠ lang) :=
  ⟨fun c h => partnerChoice_spec uid lang snap c h, partnerChoice_none uid lang snap⟩

/-- C6, amended, witness: a same-language candidate is selected with its
properties, and a queue holding only an `ru` entry yields no candidate for
an `en` caller. -/
theorem partner_choice_same_language_only_witness :
    ((⟨2, 0, "en"⟩ : WEntry) ∈ [(⟨2, 0, "en"⟩ : WEntry)] ∧
      (⟨2, 0, "en"⟩ : WEntry).user_id ≠ 1 ∧ (⟨2, 0, "en"⟩ : WEntry).lang = "en") ∧
    (∀ c ∈ [(⟨2, 0, "ru"⟩ : WEntry)], c.user_id = 1 ∨ c.lang ≠ "en") :=
  ⟨(partner_choice_same_language_only [⟨2, 0, "en"⟩] 1 "en").1 ⟨2, 0, "en"⟩ rfl,
   (partner_choice_same_language_only [⟨2, 0, "ru"⟩] 1 "en").2 rfl⟩

/-- C8, amended.  Once the store's TTL pass has run, every entry it keeps —
and hence every candidate the selection loop can return from the swept
queue — is strictly younger than the 300-second TTL; only between exceeding
the TTL and the pass can an over-TTL entry still be matched (see the
counterexample). -/
theorem sweep_bounds_candidate_age (s : DBState) (uid : Int) (lang : String)
    (c : WEntry)
    (h : partnerChoice ((ttl_sweep s).waiting_queue) uid lang = some c) :
    (ttl_sweep s).now < c.timestamp + 300 := by
  have hcmem := (partnerChoice_spec uid lang _ c h).1
  have hsw : (ttl_sweep s).waiting_queue =
      s.waiting_queue.filter (fun e => s.now < e.timestamp + 300) := rfl
  rw [hsw] at hcmem
  have := (List.mem_filter.mp hcmem).2
  exact of_decide_eq_true this

/-- C8, amended, witness: after the sweep at time 301, the over-TTL entry
(enqueued at 0) is gone, the younger entry (enqueued at 300) is the
candidate, and the bound holds for it. -/
theorem sweep_bounds_candidate_age_witness :
    partnerChoice ((ttl_sweep { waiting_queue := [⟨1, 0, "en"⟩, ⟨2, 300, "en"⟩], now := 301 }).waiting_queue) 3 "en" = some ⟨2, 300, "en"⟩ ∧
    (ttl_sweep { waiting_queue := [⟨1, 0, "en"⟩, ⟨2, 300, "en"⟩], now := 301 }).now <
      (⟨2, 300, "en"⟩ : WEntry).timestamp + 300 :=
  ⟨by decide,
   sweep_bounds_candidate_age ({ waiting_queue := [⟨1, 0, "en"⟩, ⟨2, 300, "en"⟩], now := 301 }) 3 "en" ⟨2, 300, "en"⟩ (by decide)⟩

theorem cleanup_user_fsm_self (cfg : Cfg) (s : DBState) (uid : Int) :
    fsmGet (cleanup_user cfg s uid) uid = none := by
  unfold cleanup_user
  split
  · exact fsmGet_fsmClear_self _ uid
  · exact fsmGet_fsmClear_self _ uid

/-- C9, amended.  A send failure for a blocked/deleted recipient triggers
`cleanup_user`, which performs the disconnect cleanup — the active session
is ended and the waiting entry removed, the FSM context cleared — but also
strictly more than an explicit `/stop`: the unreachable user is banned and
their warning count is set to `MAX_WARNINGS`. -/
theorem unreachable_cleanup_effects (cfg : Cfg) (s : DBState) (uid : Int)
    (pr : PairDoc)
    (hnd : (s.waiting_queue.map WEntry.user_id).Nodup)
    (hacts : s.active_pairs.filter (fun p => p.status == "active") = [pr])
    (hpid : ∀ p ∈ s.active_pairs, p.pair_id = pr.pair_id → p = pr)
    (hum : (pr.user1_id == uid || pr.user2_id == uid) = true) :
    get_pair (on_unreachable cfg s uid) uid = none ∧
    is_waiting (on_unreachable cfg s uid) uid = false ∧
    fsmGet (on_unreachable cfg s uid) uid = none ∧
    is_banned (on_unreachable cfg s uid) uid = true ∧
    get_warnings (on_unreachable cfg s uid) uid = cfg.maxWarnings := by
  have hget : get_pair s uid = some pr :=
    get_pair_singleton_active uid pr hum s.active_pairs hacts
  unfold on_unreachable
  refine ⟨?_, ?_, ?_, ?_, ?_⟩
  · exact get_pair_of_no_active _ uid
      (cleanup_user_kills_active cfg s uid pr hget hacts hpid)
  · show ((cleanup_user cfg s uid).waiting_queue.find?
      (fun e => e.user_id == uid)).isSome = false
    rw [cleanup_user_waiting, is_waiting_removeGo_self uid s.waiting_queue hnd]
    rfl
  · exact cleanup_user_fsm_self cfg s uid
  · rw [is_banned_cleanup_user]
    simp
  · rw [get_warnings_cleanup_user]
    simp

/-- C9, amended, witness: instantiated at the reachable state where users 1
and 2 are paired and delivery to user 1 fails. -/
theorem unreachable_cleanup_effects_witness :
    get_pair (on_unreachable {} (runEvents {} [.next 1 "en" 5, .next 2 "en" 7]) 1) 1 =
      none ∧
    is_waiting (on_unreachable {} (runEvents {} [.next 1 "en" 5, .next 2 "en" 7]) 1) 1 =
      false ∧
    fsmGet (on_unreachable {} (runEvents {} [.next 1 "en" 5, .next 2 "en" 7]) 1) 1 =
      none ∧
    is_banned (on_unreachable {} (runEvents {} [.next 1 "en" 5, .next 2 "en" 7]) 1) 1 =
      true ∧
    get_warnings (on_unreachable {} (runEvents {} [.next 1 "en" 5, .next 2 "en" 7]) 1) 1 =
      Cfg.maxWarnings {} :=
  unreachable_cleanup_effects {} (runEvents {} [.next 1 "en" 5, .next 2 "en" 7]) 1
    ({ user1_id := 1, user2_id := 2, pair_id := 7, created_at := 0,
       last_activity := 0, status := "active" })
    (by decide) (by decide) (by decide) (by decide)
